import Mathlib

set_option maxRecDepth 100000

/-!
Shallow embedding of the SpendSight transaction-classification pipeline
(PipeLine.py, UnifiedPipeline.py, regex_engine/, heuristics/, nlp/).

Text processing is modelled structurally over `List Char` so that every
definition evaluates inside the kernel; rational numbers stand in for Python
floats (every constant the program compares against is an exact decimal, and
`mkRat` keeps the values kernel-computable).  Compiled regular expressions
whose match semantics no claim depends on are abstracted as oracle
parameters of the embedding; every table, constant, threshold and piece of
control flow is transcribed from the source files.
-/

namespace SpendSight

/-- Python whitespace characters, as recognised by str.strip and the regex
class backslash-s. -/
def isPyWs (c : Char) : Bool :=
  c == ' ' || c == '\t' || c == '\n' || c == '\r' || c == '\x0b' || c == '\x0c'

/-- ASCII decimal digit test. -/
def isDigitC (c : Char) : Bool := '0' ≤ c && c ≤ '9'

/-- ASCII letter test. -/
def isAlphaC (c : Char) : Bool := ('a' ≤ c && c ≤ 'z') || ('A' ≤ c && c ≤ 'Z')

/-- ASCII alphanumeric test. -/
def isAlnumC (c : Char) : Bool := isAlphaC c || isDigitC c

/-- ASCII uppercase conversion of one character (Python str.upper on the
ASCII bank-statement alphabet). -/
def charUpper (c : Char) : Char :=
  if 'a' ≤ c && c ≤ 'z' then Char.ofNat (c.toNat - 32) else c

/-- ASCII lowercase conversion of one character. -/
def charLower (c : Char) : Char :=
  if 'A' ≤ c && c ≤ 'Z' then Char.ofNat (c.toNat + 32) else c

/-- Python str.upper. -/
def pyUpper (s : String) : String := ⟨s.toList.map charUpper⟩

/-- Python str.lower. -/
def pyLower (s : String) : String := ⟨s.toList.map charLower⟩

/-- Python str.strip on a character list. -/
def stripChars (l : List Char) : List Char :=
  ((l.dropWhile isPyWs).reverse.dropWhile isPyWs).reverse

/-- Python str.strip. -/
def pyStrip (s : String) : String := ⟨stripChars s.toList⟩

/-- Whether the first list is a prefix of the second (matching position of a
substring scan). -/
def matchesAt : List Char → List Char → Bool
  | [], _ => true
  | _ :: _, [] => false
  | a :: as, b :: bs => a == b && matchesAt as bs

/-- Python substring containment: needle in hay. -/
def containsChars : List Char → List Char → Bool
  | [], needle => needle.isEmpty
  | c :: t, needle => matchesAt needle (c :: t) || containsChars t needle

/-- Python substring containment on strings: needle in hay. -/
def pyContains (hay needle : String) : Bool := containsChars hay.toList needle.toList

/-- Python str.split() with no separator: split on whitespace runs, dropping
empty pieces; acc carries the current word reversed. -/
def wsSplitAux : List Char → List Char → List (List Char)
  | [], acc => if acc.isEmpty then [] else [acc.reverse]
  | c :: t, acc =>
    if isPyWs c then
      if acc.isEmpty then wsSplitAux t [] else acc.reverse :: wsSplitAux t []
    else wsSplitAux t (c :: acc)

/-- Python str.split() on a string. -/
def pySplitWs (s : String) : List String := (wsSplitAux s.toList []).map List.asString

/-- Python str.split(sep) for a one-character separator (keeps empty pieces). -/
def splitOnCharAux (sep : Char) : List Char → List Char → List (List Char)
  | [], acc => [acc.reverse]
  | c :: t, acc =>
    if c == sep then acc.reverse :: splitOnCharAux sep t []
    else splitOnCharAux sep t (c :: acc)

/-- Python str.split(sep) on a string, for a one-character separator. -/
def pySplitChar (sep : Char) (s : String) : List String :=
  (splitOnCharAux sep s.toList []).map List.asString

/-- Decimal value of a digit list (int of the decimal string; empty gives 0). -/
def digitsVal (l : List Char) : Nat := l.foldl (fun acc c => 10 * acc + (c.toNat - 48)) 0

/-- Python min on two rationals. -/
def pyMin (a b : ℚ) : ℚ := if a ≤ b then a else b

/-- Python max on two rationals. -/
def pyMax (a b : ℚ) : ℚ := if b ≤ a then a else b

/-- Python abs on a rational, written so it evaluates in the kernel. -/
def ratAbs (q : ℚ) : ℚ := if q < 0 then -q else q

/-- Parse an unsigned decimal literal: digits with an optional fractional
part, at least one digit overall.  This is the shape Python float accepts on
the inputs this program feeds it (exponent and inf/nan forms never occur). -/
def parseUnsignedChars (l : List Char) : Option ℚ :=
  let ip := l.takeWhile isDigitC
  let rest := l.dropWhile isDigitC
  match rest with
  | [] => if ip.isEmpty then none else some (mkRat (digitsVal ip) 1)
  | '.' :: fp =>
    if fp.all isDigitC && !(ip.isEmpty && fp.isEmpty) then
      some (mkRat (digitsVal ip * 10 ^ fp.length + digitsVal fp) (10 ^ fp.length))
    else none
  | _ => none

/-- Python float(s) on a decimal literal with optional sign and surrounding
whitespace. -/
def pyFloatChars (l : List Char) : Option ℚ :=
  match stripChars l with
  | '-' :: t => (parseUnsignedChars t).map (fun q => -q)
  | '+' :: t => parseUnsignedChars t
  | t => parseUnsignedChars t

/-- Amount cleaner clean_amount from PipeLine.py: a falsy input gives 0.0;
otherwise commas and spaces are removed, a value wrapped in parentheses is
prefixed with a minus sign, and a failed float conversion gives 0.0.  (The
superseded clean_amount variant in normalize.py is not imported by the
pipeline and is not modelled.) -/
def clean_amount (v : Option String) : ℚ :=
  match v with
  | none => 0
  | some s =>
    if s = "" then 0
    else
      let t := s.toList.filter (fun c => !(c == ',' || c == ' '))
      let t := if t.head? == some '(' && t.getLast? == some ')' then
          '-' :: (t.drop 1).dropLast
        else t
      match pyFloatChars t with
      | some q => q
      | none => 0

/-- Calendar date as produced by Python datetime.date. -/
structure PyDate where
  year : Nat
  month : Nat
  day : Nat
deriving DecidableEq

/-- Gregorian leap-year rule used by datetime.date. -/
def isLeapYear (y : Nat) : Bool := (y % 4 == 0 && y % 100 != 0) || y % 400 == 0

/-- Days in a month, as validated by the datetime.date constructor. -/
def daysInMonth (y m : Nat) : Nat :=
  if m == 1 || m == 3 || m == 5 || m == 7 || m == 8 || m == 10 || m == 12 then 31
  else if m == 4 || m == 6 || m == 9 || m == 11 then 30
  else if m == 2 then (if isLeapYear y then 29 else 28)
  else 0

/-- Validity test of the datetime.date constructor (MINYEAR 1, MAXYEAR 9999). -/
def validDate (y m d : Nat) : Bool :=
  decide (1 ≤ y ∧ y ≤ 9999 ∧ 1 ≤ m ∧ m ≤ 12 ∧ 1 ≤ d ∧ d ≤ daysInMonth y m)

/-- Python date(y, m, d) wrapped in try/except: none models the caught
ValueError. -/
def mkDate (y m d : Nat) : Option PyDate :=
  if validDate y m d then some ⟨y, m, d⟩ else none

/-- Two-digit year expansion of parse_date: years below 100 map to 2000 plus
the year when below 70, otherwise 1900 plus the year. -/
def expandTwoDigitYear (y : Nat) : Nat :=
  if y < 100 then (if y < 70 then 2000 + y else 1900 + y) else y

/-- Character sanitiser of parse_date: characters outside word characters,
dash, slash, dot and space become spaces. -/
def dateSanitize (c : Char) : Char :=
  if isAlnumC c || c == '_' || c == '-' || c == '/' || c == '.' || c == ' ' then c else ' '

/-- Collapse every whitespace run into a single space. -/
def collapseWs : List Char → List Char
  | [] => []
  | [c] => [if isPyWs c then ' ' else c]
  | c1 :: c2 :: t =>
    if isPyWs c1 && isPyWs c2 then collapseWs (c2 :: t)
    else (if isPyWs c1 then ' ' else c1) :: collapseWs (c2 :: t)

/-- Date separators accepted between day, month and year groups. -/
def isSepC (c : Char) : Bool := c == '/' || c == '-' || c == '.' || c == ' '

/-- Date branch 1 of parse_date: one-or-two-digit day, separator,
one-or-two-digit month, separator, two-to-four-digit year, end of text
(day first; the year is expanded when below 100). -/
def branchDMY (l : List Char) : Option PyDate :=
  let d1 := l.takeWhile isDigitC
  let r1 := l.dropWhile isDigitC
  if 1 ≤ d1.length ∧ d1.length ≤ 2 then
    match r1 with
    | s1 :: r2 =>
      if isSepC s1 then
        let d2 := r2.takeWhile isDigitC
        let r3 := r2.dropWhile isDigitC
        if 1 ≤ d2.length ∧ d2.length ≤ 2 then
          match r3 with
          | s2 :: r4 =>
            if isSepC s2 then
              let d3 := r4.takeWhile isDigitC
              let r5 := r4.dropWhile isDigitC
              if 2 ≤ d3.length ∧ d3.length ≤ 4 ∧ r5 = [] then
                mkDate (expandTwoDigitYear (digitsVal d3)) (digitsVal d2) (digitsVal d1)
              else none
            else none
          | [] => none
        else none
      else none
    | [] => none
  else none

/-- Date branch 2 of parse_date: four-digit year, separator, month, day. -/
def branchYMD (l : List Char) : Option PyDate :=
  let d1 := l.takeWhile isDigitC
  let r1 := l.dropWhile isDigitC
  if d1.length = 4 then
    match r1 with
    | s1 :: r2 =>
      if isSepC s1 then
        let d2 := r2.takeWhile isDigitC
        let r3 := r2.dropWhile isDigitC
        if 1 ≤ d2.length ∧ d2.length ≤ 2 then
          match r3 with
          | s2 :: r4 =>
            if isSepC s2 then
              let d3 := r4.takeWhile isDigitC
              let r5 := r4.dropWhile isDigitC
              if 1 ≤ d3.length ∧ d3.length ≤ 2 ∧ r5 = [] then
                mkDate (digitsVal d1) (digitsVal d2) (digitsVal d3)
              else none
            else none
          | [] => none
        else none
      else none
    | [] => none
  else none

/-- Month abbreviations accepted by strptime with the %b directive. -/
def MONTH_ABBREVS : List (String × Nat) :=
  [("Jan", 1), ("Feb", 2), ("Mar", 3), ("Apr", 4), ("May", 5), ("Jun", 6),
   ("Jul", 7), ("Aug", 8), ("Sep", 9), ("Oct", 10), ("Nov", 11), ("Dec", 12)]

/-- Python str.title on a short all-letter token: first letter up, rest down. -/
def titleCase3 : List Char → List Char
  | [] => []
  | c :: t => charUpper c :: t.map charLower

/-- Date branch 3 of parse_date: day digits, optional spaces, at least three
letters (of which the first three, title-cased, must be a month
abbreviation), optional spaces, optional two-to-four-digit year, end of text.
A missing year falls back to the current year; a year below 100 is
expanded. -/
def branchTextMonth (currentYear : Nat) (l : List Char) : Option PyDate :=
  let dd := l.takeWhile isDigitC
  let r1 := l.dropWhile isDigitC
  if 1 ≤ dd.length ∧ dd.length ≤ 2 then
    let r2 := r1.dropWhile isPyWs
    let mon := r2.takeWhile isAlphaC
    let r3 := r2.dropWhile isAlphaC
    if 3 ≤ mon.length then
      let r4 := r3.dropWhile isPyWs
      let yy := r4.takeWhile isDigitC
      let r5 := r4.dropWhile isDigitC
      if r5 = [] ∧ (yy.length = 0 ∨ (2 ≤ yy.length ∧ yy.length ≤ 4)) then
        let y := expandTwoDigitYear (if yy.length = 0 then currentYear else digitsVal yy)
        match MONTH_ABBREVS.lookup (⟨titleCase3 (mon.take 3)⟩ : String) with
        | some m => mkDate y m (digitsVal dd)
        | none => none
      else none
    else none
  else none

/-- Date branch 4 of parse_date: a plain run of six to eight digits read as
day, month, year; a six-digit run carries a two-digit year that is expanded. -/
def branchCompact (l : List Char) : Option PyDate :=
  if l.all isDigitC ∧ 6 ≤ l.length ∧ l.length ≤ 8 then
    if l.length = 6 then
      let y0 := digitsVal (l.drop 4)
      mkDate (if y0 < 70 then 2000 + y0 else 1900 + y0)
        (digitsVal ((l.drop 2).take 2)) (digitsVal (l.take 2))
    else
      mkDate (digitsVal ((l.drop 4).take 4)) (digitsVal ((l.drop 2).take 2))
        (digitsVal (l.take 2))
  else none

/-- Date parser parse_date from PipeLine.py, manual fallback path.  The
optional dateutil dependency is not modelled: with dateutil absent the code
runs exactly these branches, and on the formats the claims exercise both
paths agree.  currentYear stands for datetime.now().year, consulted only by
the textual branch when no year is present.  A falsy input or a total match
failure gives none (the caught-ValueError soft-fail contract); the variant in
normalize.py that raises instead is not imported by the pipeline and is not
modelled. -/
def parse_date (currentYear : Nat) (s : String) : Option PyDate :=
  if s = "" then none
  else
    let t0 := stripChars s.toList
    let t1 := stripChars (collapseWs (t0.map dateSanitize))
    match branchDMY t1 with
    | some d => some d
    | none =>
      match branchYMD t1 with
      | some d => some d
      | none =>
        match branchTextMonth currentYear t1 with
        | some d => some d
        | none => branchCompact t1

/-- Raw parsed transaction row, the loosely-typed mapping handed to
normalize_txn:  the date, description, direct amount, and the fixed set of
debit-like and credit-like cells the amount inference inspects.  A missing
key is none; cell values are modelled as the strings the parsers put there. -/
structure RawRow where
  date : Option String := none
  description : Option String := none
  amount : Option String := none
  debit : Option String := none
  withdrawal : Option String := none
  withdrawal_amount : Option String := none
  debit_amount : Option String := none
  dr_amount : Option String := none
  dr : Option String := none
  credit : Option String := none
  deposit : Option String := none
  deposit_amount : Option String := none
  credit_amount : Option String := none
  cr_amount : Option String := none
  cr : Option String := none
deriving DecidableEq

/-- Non-empty test of _infer_amount_from_raw_fields: a value other than
Python None, the empty string, a dash, a space, or a no-break space. -/
def hasValue : Option String → Bool
  | none => false
  | some s => !(s == "" || s == "-" || s == " " || s == "\u00A0")

/-- Debit-like cells in the fixed priority order of
_infer_amount_from_raw_fields. -/
def debitFields (tx : RawRow) : List (String × Option String) :=
  [("debit", tx.debit), ("withdrawal", tx.withdrawal),
   ("withdrawal_amount", tx.withdrawal_amount), ("debit_amount", tx.debit_amount),
   ("dr_amount", tx.dr_amount), ("dr", tx.dr)]

/-- Credit-like cells in the fixed priority order of
_infer_amount_from_raw_fields. -/
def creditFields (tx : RawRow) : List (String × Option String) :=
  [("credit", tx.credit), ("deposit", tx.deposit),
   ("deposit_amount", tx.deposit_amount), ("credit_amount", tx.credit_amount),
   ("cr_amount", tx.cr_amount), ("cr", tx.cr)]

/-- Amount inference _infer_amount_from_raw_fields from PipeLine.py: the
first non-empty debit-like cell wins and its cleaned absolute value is
negated; otherwise the first non-empty credit-like cell wins with a positive
sign; otherwise the amount is 0.0 with no source key. -/
def inferAmountFromRawFields (tx : RawRow) : ℚ × Option String :=
  match (debitFields tx).find? (fun p => hasValue p.2) with
  | some (key, raw) => (-(ratAbs (clean_amount raw)), some key)
  | none =>
    match (creditFields tx).find? (fun p => hasValue p.2) with
    | some (key, raw) => (ratAbs (clean_amount raw), some key)
    | none => (0, none)

/-- Canonical transaction record produced by normalize_txn in PipeLine.py. -/
structure NormalizedTxn where
  user_id : Nat
  statement_id : Nat
  txn_date : PyDate
  description_raw : String
  amount : ℚ
  vendor : Option String
  category : Option String
  subcategory : Option String
  confidence : ℚ
  classification_source : Option String
deriving DecidableEq

/-- Row normalizer normalize_txn from PipeLine.py: fails on a missing,
too-short or unparsable date; trusts a non-zero cleaned direct amount as-is;
otherwise infers the signed amount from the debit-like and credit-like cells;
classification fields start unset. -/
def normalize_txn (currentYear : Nat) (tx : RawRow) (statement_id user_id : Nat) :
    Option NormalizedTxn :=
  let raw_date := pyStrip (tx.date.getD "")
  if raw_date = "" ∨ raw_date.length < 4 then none
  else
    match parse_date currentYear raw_date with
    | none => none
    | some d =>
      let desc := pyStrip (tx.description.getD "")
      let amt := clean_amount tx.amount
      let signed_amount := if amt ≠ 0 then amt else (inferAmountFromRawFields tx).1
      some { user_id := user_id, statement_id := statement_id, txn_date := d,
             description_raw := desc, amount := signed_amount, vendor := none,
             category := none, subcategory := none, confidence := 0,
             classification_source := none }

/-! Configuration constants of UnifiedPipeline.py (documented env defaults). -/

/-- Default MiniLM low-confidence threshold (0.50). -/
def MINILM_LOW_CONF_THRESHOLD : ℚ := mkRat 50 100

/-- Default LLM fallback confidence threshold (0.25). -/
def LLM_FALLBACK_CONF_THRESHOLD : ℚ := mkRat 25 100

/-- Default LLM retry ceiling (3 attempts). -/
def LLM_RETRY_MAX : Nat := 3

/-- Default LLM backoff base (2.0). -/
def LLM_BACKOFF_BASE : ℚ := mkRat 2 1

/-- Persisted transaction row as the orchestrator reads and mutates it. -/
structure DBTxn where
  txn_id : Nat
  description_raw : Option String
  description_clean : Option String
  vendor : Option String
  category : Option String
  subcategory : Option String
  confidence : ℚ
  classification_source : Option String
deriving DecidableEq

/-- Python falsy-or chain on two optional strings: a or b. -/
def pyOrStr (a b : Option String) : Option String :=
  match a with
  | some s => if s = "" then b else a
  | none => b

/-- Python expression: a or dflt, where dflt is a non-empty literal. -/
def pyOrDefault (a : Option String) (dflt : String) : String :=
  match pyOrStr a (some dflt) with
  | some s => s
  | none => dflt

/-- Selection predicate of the Stage 3 fetch (fetch_transactions_for_minilm
WHERE clause): category NULL or PENDING, or classification_source in regex or
heuristic with confidence strictly below the threshold.  SQL three-valued
logic makes a NULL source fail the IN test. -/
def minilmSelect (threshold : ℚ) (t : DBTxn) : Bool :=
  t.category == none || t.category == some "PENDING" ||
    ((t.classification_source == some "regex" ||
      t.classification_source == some "heuristic") && decide (t.confidence < threshold))

/-- Selection predicate of the Stage 4 fetch (fetch_transactions_for_llm
WHERE clause): category PENDING, or classification_source bert with
confidence strictly below the threshold. -/
def llmSelect (threshold : ℚ) (t : DBTxn) : Bool :=
  t.category == some "PENDING" ||
    (t.classification_source == some "bert" && decide (t.confidence < threshold))

/-- Stage 3 candidate fetch over a statement's transactions. -/
def fetch_transactions_for_minilm (threshold : ℚ) (txns : List DBTxn) : List DBTxn :=
  txns.filter (minilmSelect threshold)

/-- Stage 4 candidate fetch over a statement's transactions. -/
def fetch_transactions_for_llm (threshold : ℚ) (txns : List DBTxn) : List DBTxn :=
  txns.filter (llmSelect threshold)

/-! Stage 4 retry wrapper llm_classify_with_retry of UnifiedPipeline.py. -/

/-- One LLM batch item result: category, subcategory, confidence, and the
error tag of the meta mapping. -/
structure LLMResult where
  category : String
  subcategory : Option String
  confidence : ℚ
  metaError : Option String
deriving DecidableEq

/-- The degraded result mapped onto every item of a batch whose retries are
exhausted. -/
def llmFailedResult : LLMResult := ⟨"PENDING", none, 0, some "llm_failed"⟩

/-- Observable trace of the retry wrapper: the returned list and the backoff
sleeps performed (in seconds, in order). -/
structure RetryTrace where
  results : List LLMResult
  sleeps : List ℚ
deriving DecidableEq

/-- Retry loop of llm_classify_with_retry: classify is the external
classify_batch call, indexed by attempt number, returning none when it
raises; after a failed attempt the wrapper sleeps base to the power of the
incremented attempt counter; when the attempt ceiling is reached every
description maps to the degraded PENDING result. -/
def llmRetryGo (classify : Nat → Option (List LLMResult)) (base : ℚ)
    (descriptions : List String) : Nat → Nat → RetryTrace
  | _, 0 => ⟨descriptions.map fun _ => llmFailedResult, []⟩
  | attempt, remaining + 1 =>
    match classify attempt with
    | some results => ⟨results, []⟩
    | none =>
      let next := attempt + 1
      let rest := llmRetryGo classify base descriptions next remaining
      ⟨rest.results, base ^ next :: rest.sleeps⟩

/-- Bounded-retry wrapper llm_classify_with_retry from UnifiedPipeline.py.
The wrapper never propagates the exception: its result type has no error
case. -/
def llm_classify_with_retry (classify : Nat → Option (List LLMResult)) (base : ℚ)
    (retryMax : Nat) (descriptions : List String) : RetryTrace :=
  llmRetryGo classify base descriptions 0 retryMax

/-! Stage 3 embedding classifier (nlp/miniLM_classifier.py): thresholds,
margin-aware confidence mapping, and the crash-safe entry wrapper. -/

/-- Similarity from which a match becomes trusted (0.50). -/
def MIN_SIM_FOR_CONFIDENT : ℚ := mkRat 50 100

/-- Similarity below which the heuristics fallback is tried (0.42). -/
def LOWER_SIM_FOR_PENDING : ℚ := mkRat 42 100

/-- Similarity of an immediately confident match (0.80). -/
def HIGH_CONF_SIM : ℚ := mkRat 80 100

/-- Margin-aware confidence mapping of classify_single, applied to the best
cosine similarity raw_conf and the second-best second_sim: top band gives
1.0; the middle band scales the similarity between the two thresholds and
adds half the margin, clipped by min 1 and max 0; the low band rescales
against the pending threshold, clipped by max 0 only. -/
def confidenceFromSims (raw_conf second_sim : ℚ) : ℚ :=
  let margin := raw_conf - second_sim
  if HIGH_CONF_SIM ≤ raw_conf ∧ mkRat 3 100 < margin then 1
  else if MIN_SIM_FOR_CONFIDENT ≤ raw_conf then
    let base := (raw_conf - MIN_SIM_FOR_CONFIDENT) / (HIGH_CONF_SIM - MIN_SIM_FOR_CONFIDENT)
    pyMin 1 (pyMax 0 (base + margin * mkRat 5 10))
  else
    pyMax 0 ((raw_conf - LOWER_SIM_FOR_PENDING) / (MIN_SIM_FOR_CONFIDENT - LOWER_SIM_FOR_PENDING))

/-- Dynamically-typed classifier input: the description may be a string,
Python None, or a non-text value such as an integer. -/
inductive PyInput where
  | pyNone : PyInput
  | str : String → PyInput
  | int : Int → PyInput
deriving DecidableEq

/-- Python truthiness of a classifier input. -/
def pyTruthy : PyInput → Bool
  | .pyNone => false
  | .str s => s != ""
  | .int n => n != 0

/-- The Python exception a string method raises on a non-text value. -/
inductive PyError where
  | attributeError : PyError
deriving DecidableEq

/-- Result triple of classify_single: label (Category.Sub or PENDING),
confidence, and the reason tag of the meta mapping. -/
structure MiniResult where
  label : String
  confidence : ℚ
  metaReason : Option String
deriving DecidableEq

/-- Entry of classify_single from nlp/miniLM_classifier.py: the whole body
runs inside a catch-all try.  The input guard (a falsy input or a
whitespace-only string) returns PENDING with reason empty_text; a non-text
truthy value makes text.strip() raise, which the catch-all converts to
PENDING with an exception reason.  The post-guard body (model loading,
embedding, rule overrides) is a parameter: no claim depends on it, and any
exception it raises is converted the same way. -/
def classify_single_entry (body : String → Except PyError MiniResult)
    (inp : PyInput) : MiniResult :=
  let attempt : Except PyError MiniResult :=
    match inp with
    | .pyNone => .ok ⟨"PENDING", 0, some "empty_text"⟩
    | .str s => if s = "" ∨ pyStrip s = "" then .ok ⟨"PENDING", 0, some "empty_text"⟩ else body s
    | .int n => if n = 0 then .ok ⟨"PENDING", 0, some "empty_text"⟩ else .error .attributeError
  match attempt with
  | .ok r => r
  | .error _ => ⟨"PENDING", 0, some "exception"⟩

/-- Result tuple of classify_with_heuristics: category, subcategory,
confidence, meta as an ordered key-value list. -/
structure HeurResult where
  category : String
  subcategory : Option String
  confidence : ℚ
  meta : List (String × String)
deriving DecidableEq

/-- The empty-input result of classify_with_heuristics. -/
def heurPendingEmpty : HeurResult := ⟨"PENDING", none, 0, [("reason", "empty")]⟩

/-- Entry of classify_with_heuristics from
heuristics/heuristics_classifier.py: a falsy or whitespace-only input returns
PENDING with reason empty; a truthy non-text value reaches
description.strip() in the guard itself and raises AttributeError
uncaught.  The keyword body that runs on real text is a parameter: the
claims about this stage concern only the input guard. -/
def classify_with_heuristics_entry (body : String → HeurResult) :
    PyInput → Except PyError HeurResult
  | .pyNone => .ok heurPendingEmpty
  | .str s => if s = "" ∨ pyStrip s = "" then .ok heurPendingEmpty else .ok (body s)
  | .int n => if n = 0 then .ok heurPendingEmpty else .error .attributeError

/-! Cascade orchestrator: the already-processed branch of worker_process_file
in UnifiedPipeline.py (lines 279 to 371).  statement_exists finds the
statement, so no parse, normalize or insert runs; the four stage passes
re-apply the classifiers to the non-resolved or low-confidence rows only.
Each stage's verdict is written back to the row and appended to the
classification log. -/

/-- Append-only classification log entry (txn, stage, prediction,
confidence). -/
structure LogEntry where
  txn_id : Nat
  stage : String
  prediction : String
  confidence : ℚ
deriving DecidableEq

/-- Persisted state of one statement: its transaction rows and the
classification log. -/
structure PipelineState where
  txns : List DBTxn
  logs : List LogEntry
deriving DecidableEq

/-- Stage classifier oracles the orchestrator calls: Stage 1 regex (category,
subcategory, vendor, confidence), Stage 2 heuristics, Stage 3 MiniLM (label,
confidence), Stage 4 LLM per-description (category, subcategory,
confidence).  The rerun claims hold for every choice of these functions. -/
structure StageClassifiers where
  regexClf : String → String × Option String × Option String × ℚ
  heurClf : String → String × Option String × ℚ
  minilmClf : String → String × ℚ
  llmClf : String → String × Option String × ℚ

/-- The prediction string written to the log: Category.Sub when a subcategory
exists, else the category alone. -/
def predictionStr (cat : String) (sub : Option String) : String :=
  match sub with
  | some s => cat ++ "." ++ s
  | none => cat

/-- Selection of the rerun regex and heuristics passes: category IS NULL OR
category = PENDING. -/
def isNullOrPending (t : DBTxn) : Bool :=
  t.category == none || t.category == some "PENDING"

/-- Description choice of the rerun regex pass: description_raw or the empty
string. -/
def descRawOnly (t : DBTxn) : String := pyOrDefault t.description_raw ""

/-- Description choice of the later passes: description_clean or
description_raw or the empty string. -/
def descCleanFirst (t : DBTxn) : String :=
  match pyOrStr t.description_clean t.description_raw with
  | some s => s
  | none => ""

/-- Rerun regex pass: every still-pending row is reclassified by Stage 1, all
five classification fields are overwritten with source regex, and a log entry
is appended. -/
def rerunRegexPass (clfs : StageClassifiers) (st : PipelineState) : PipelineState :=
  let upd := fun (t : DBTxn) =>
    let (cat, sub, vendor, conf) := clfs.regexClf (descRawOnly t)
    { t with vendor := vendor, category := some cat, subcategory := sub,
             confidence := conf, classification_source := some "regex" }
  { txns := st.txns.map (fun t => if isNullOrPending t then upd t else t),
    logs := st.logs ++ (st.txns.filter isNullOrPending).map (fun t =>
      let (cat, sub, _, conf) := clfs.regexClf (descRawOnly t)
      ⟨t.txn_id, "regex", predictionStr cat sub, conf⟩) }

/-- Rerun heuristics pass: still-pending rows are offered to Stage 2, and
only a non-PENDING verdict is written back and logged. -/
def rerunHeurPass (clfs : StageClassifiers) (st : PipelineState) : PipelineState :=
  let upd := fun (t : DBTxn) =>
    let (cat, sub, conf) := clfs.heurClf (descCleanFirst t)
    if cat ≠ "PENDING" then
      { t with category := some cat, subcategory := sub, confidence := conf,
               classification_source := some "heuristic" }
    else t
  { txns := st.txns.map (fun t => if isNullOrPending t then upd t else t),
    logs := st.logs ++ (st.txns.filter isNullOrPending).filterMap (fun t =>
      let (cat, sub, conf) := clfs.heurClf (descCleanFirst t)
      if cat ≠ "PENDING" then some ⟨t.txn_id, "heuristic", predictionStr cat sub, conf⟩
      else none) }

/-- Row update of apply_minilm_to_txn_worker: an empty description only marks
the row with source bert at confidence 0; otherwise the label is split on the
first dot into category and subcategory and all fields are overwritten with
source bert. -/
def applyMinilmUpdate (clfs : StageClassifiers) (t : DBTxn) : DBTxn :=
  let desc := descCleanFirst t
  if desc = "" then
    { t with classification_source := some "bert", confidence := 0 }
  else
    let (label, conf) := clfs.minilmClf desc
    if label = "PENDING" then
      { t with category := some "PENDING", subcategory := none, confidence := conf,
               classification_source := some "bert" }
    else
      let parts := pySplitChar '.' label
      { t with category := some (parts.headD ""), subcategory := parts[1]?,
               confidence := conf, classification_source := some "bert" }

/-- Log entry of apply_minilm_to_txn_worker (the raw label is the
prediction). -/
def applyMinilmLog (clfs : StageClassifiers) (t : DBTxn) : LogEntry :=
  let desc := descCleanFirst t
  if desc = "" then ⟨t.txn_id, "bert", "PENDING", 0⟩
  else
    let (label, conf) := clfs.minilmClf desc
    ⟨t.txn_id, "bert", label, conf⟩

/-- Rerun MiniLM pass over the Stage 3 fetch. -/
def rerunMinilmPass (clfs : StageClassifiers) (threshold : ℚ) (st : PipelineState) :
    PipelineState :=
  { txns := st.txns.map (fun t =>
      if minilmSelect threshold t then applyMinilmUpdate clfs t else t),
    logs := st.logs ++ (fetch_transactions_for_minilm threshold st.txns).map
      (applyMinilmLog clfs) }

/-- Rerun LLM pass over the Stage 4 fetch: every selected row is overwritten
with the batch result under source llm and logged.  The batch call is
modelled as a per-description oracle, which preserves the zip of the fetched
rows with the ordered batch results. -/
def rerunLlmPass (clfs : StageClassifiers) (threshold : ℚ) (st : PipelineState) :
    PipelineState :=
  let upd := fun (t : DBTxn) =>
    let (cat, sub, conf) := clfs.llmClf (descCleanFirst t)
    { t with category := some cat, subcategory := sub, confidence := conf,
             classification_source := some "llm" }
  { txns := st.txns.map (fun t => if llmSelect threshold t then upd t else t),
    logs := st.logs ++ (fetch_transactions_for_llm threshold st.txns).map (fun t =>
      let (cat, sub, conf) := clfs.llmClf (descCleanFirst t)
      ⟨t.txn_id, "llm", predictionStr cat sub, conf⟩) }

/-- The already-processed rerun branch of worker_process_file: the four stage
passes in order, with the configured thresholds.  No insert happens on this
path. -/
def rerun_statement (clfs : StageClassifiers) (st : PipelineState) : PipelineState :=
  rerunLlmPass clfs LLM_FALLBACK_CONF_THRESHOLD
    (rerunMinilmPass clfs MINILM_LOW_CONF_THRESHOLD
      (rerunHeurPass clfs
        (rerunRegexPass clfs st)))

/-- A transaction in the resolved state of the idempotency claim: a
non-PENDING category, and a confidence at or above the fallthrough threshold
of the stage its classification_source names. -/
def resolvedTxn (t : DBTxn) : Prop :=
  (∃ c, t.category = some c ∧ c ≠ "PENDING") ∧
  ((t.classification_source = some "regex" ∨ t.classification_source = some "heuristic") →
    MINILM_LOW_CONF_THRESHOLD ≤ t.confidence) ∧
  (t.classification_source = some "bert" → LLM_FALLBACK_CONF_THRESHOLD ≤ t.confidence)

/-- Result tuple of classify_with_regex: category, subcategory, vendor,
confidence, meta as an ordered key-value list. -/
structure RegexResult where
  category : String
  subcategory : Option String
  vendor : Option String
  confidence : ℚ
  meta : List (String × String)
deriving DecidableEq

/-! Stage 1 rule classifier (regex_engine/regex_classifier.py,
regex_engine/upi_utils.py) with its static tables.  The compiled regular
expressions are abstracted as oracle parameters in RegexEnv; the tables, the
match ordering, every confidence constant and the full control flow are
transcribed from the source. -/

/-- Static vendor-to-(category, subcategory) table transcribed from regex_engine/vendor_map.py (insertion order preserved). -/
def VENDOR_CATEGORY_MAP : List (String × String × String) := [
  ("ZOMATO", "Dining", "FoodDelivery"),
  ("SWIGGY", "Dining", "FoodDelivery"),
  ("DUNZO", "Dining", "FoodDelivery"),
  ("EATFIT", "Dining", "FoodDelivery"),
  ("BOX8", "Dining", "FoodDelivery"),
  ("FAASOS", "Dining", "FoodDelivery"),
  ("HOTEL RAJ", "Dining", "Restaurant"),
  ("HOTEL RAYAT", "Dining", "Restaurant"),
  ("MSW(HOTEL RAJ", "Dining", "Restaurant"),
  ("GIRIJA CATERERS", "Dining", "Restaurant"),
  ("SAGAR RESTAURANT", "Dining", "Restaurant"),
  ("SONA GARDEN RESTAURANT", "Dining", "Restaurant"),
  ("DHARESHWAR RESTAURANT", "Dining", "Restaurant"),
  ("HOTEL JAGDAMB", "Dining", "Restaurant"),
  ("MAULI DHABA", "Dining", "Restaurant"),
  ("SHETKARI BHOJANALAY", "Dining", "Restaurant"),
  ("HOTEL SAMMAN", "Dining", "Restaurant"),
  ("GIRIDHAR VEG RESTURANT", "Dining", "Restaurant"),
  ("KFC", "Dining", "Restaurant"),
  ("MCDONALD", "Dining", "Restaurant"),
  ("DOMINOS", "Dining", "Restaurant"),
  ("PIZZA HUT", "Dining", "Restaurant"),
  ("PIZZAHUT", "Dining", "Restaurant"),
  ("CCD", "Dining", "Cafe"),
  ("CAFECOFFEEDAY", "Dining", "Cafe"),
  ("CAFE COFFEE DAY", "Dining", "Cafe"),
  ("PUNERI CHAI", "Dining", "Cafe"),
  ("HARSH TEA", "Dining", "Cafe"),
  ("SHREE SAINATH BHEL", "Dining", "SnacksAndBeverages"),
  ("MEENA SNACKS CENTRE", "Dining", "SnacksAndBeverages"),
  ("DEEPAK SNACKS", "Dining", "SnacksAndBeverages"),
  ("DEEPAK SNACKS CENTER", "Dining", "SnacksAndBeverages"),
  ("SHREE RAMKRUSHNA FOODS", "Dining", "SnacksAndBeverages"),
  ("ANUSHKA BHEL PAKODI CENTER", "Dining", "SnacksAndBeverages"),
  ("SONAI DAVANGIRI DOSA", "Dining", "SnacksAndBeverages"),
  ("BALAJI FAST FOOD", "Dining", "SnacksAndBeverages"),
  ("SHREE UPHAR GRUH", "Dining", "SnacksAndBeverages"),
  ("JAGDAMBA SNACKS", "Dining", "SnacksAndBeverages"),
  ("SAI FOODS", "Dining", "SnacksAndBeverages"),
  ("RAJ PAN SHOP", "Miscellaneous", "PanShop"),
  ("MUTAI PAN SHOP", "Miscellaneous", "PanShop"),
  ("DMART", "Groceries", "Supermarket"),
  ("D MART NANDED CITY", "Groceries", "Supermarket"),
  ("JIOMART", "Groceries", "Supermarket"),
  ("JIO MART", "Groceries", "Supermarket"),
  ("NATURESBASKET", "Groceries", "Supermarket"),
  ("SPENCERS", "Groceries", "Supermarket"),
  ("MOREMEGASTORE", "Groceries", "Supermarket"),
  ("STARQUICK", "Groceries", "Supermarket"),
  ("RELIANCE FRESH", "Groceries", "Supermarket"),
  ("BIGBASKET", "Groceries", "OnlineGroceries"),
  ("BBDAILY", "Groceries", "OnlineGroceries"),
  ("BB-", "Groceries", "OnlineGroceries"),
  ("ZEPT", "Groceries", "OnlineGroceries"),
  ("ZEPTO", "Groceries", "OnlineGroceries"),
  ("BLINKIT", "Groceries", "OnlineGroceries"),
  ("GROFERS", "Groceries", "OnlineGroceries"),
  ("SWIGGY INSTAMART", "Groceries", "OnlineGroceries"),
  ("DUNZO DAILY", "Groceries", "OnlineGroceries"),
  ("GURUKRUPA SUPER MARKET", "Groceries", "LocalShops"),
  ("SHRI AAIJI SUPER MARKET", "Groceries", "LocalShops"),
  ("KATRAJ DAIRY", "Groceries", "LocalShops"),
  ("VISHAL VEGETABLES", "Groceries", "LocalShops"),
  ("TRUPTI", "Groceries", "LocalShops"),
  ("COSMOS", "Groceries", "LocalShops"),
  ("AMAZON", "Shopping", "Online"),
  ("AMAZON.IN", "Shopping", "Online"),
  ("FLIPKART", "Shopping", "Online"),
  ("MYNTRA", "Shopping", "Fashion"),
  ("AJIO", "Shopping", "Fashion"),
  ("TATACLIQ", "Shopping", "Online"),
  ("TATANEU", "Shopping", "Online"),
  ("NYKAA", "Shopping", "Beauty"),
  ("MEESHO", "Shopping", "Online"),
  ("SNAPDEAL", "Shopping", "Online"),
  ("SHOPPERSSTOP", "Shopping", "Fashion"),
  ("SHOPPERS STOP", "Shopping", "Fashion"),
  ("LIFESTYLE", "Shopping", "Fashion"),
  ("MAXFASHION", "Shopping", "Fashion"),
  ("MAX FASHION", "Shopping", "Fashion"),
  ("RELIANCE TRENDS", "Shopping", "Fashion"),
  ("PANTALOONS", "Shopping", "Fashion"),
  ("WESTSIDE", "Shopping", "Fashion"),
  ("NEW MAYUR COLLECTION", "Shopping", "Fashion"),
  ("SUYASH DRESSES", "Shopping", "Fashion"),
  ("CROMA", "Shopping", "Electronics"),
  ("VIJAYSALES", "Shopping", "Electronics"),
  ("RELIANCE DIGITAL", "Shopping", "Electronics"),
  ("REL DIGITAL", "Shopping", "Electronics"),
  ("CLASSIC RETAIL OUTLET", "Shopping", "Electronics"),
  ("BOMBAY STATIONERS", "Shopping", "Stationery"),
  ("JEEVANDEEP STATIONERY", "Shopping", "Stationery"),
  ("IPRINT ENTERPRISES", "Shopping", "Stationery"),
  ("VIDHATA XEROX AND GENERAL STORE", "Shopping", "Stationery"),
  ("SHRUTI MEDICAL", "Shopping", "Pharmacy"),
  ("SHRUTI MEDICAL AND GEN", "Shopping", "Pharmacy"),
  ("DHARESHWAR MEDICAL", "Shopping", "Pharmacy"),
  ("SHRIKRISHNA MEDICAL AND GENERAL", "Shopping", "Pharmacy"),
  ("APOLLO PHARMACY", "Shopping", "Pharmacy"),
  ("NETMEDS", "Shopping", "Pharmacy"),
  ("1MG", "Shopping", "Pharmacy"),
  ("RIBBONS AND BALLOONS", "Shopping", "Decorations"),
  ("RIBBONS AND BALLOONS DSK", "Shopping", "Decorations"),
  ("SHITAL VAIBHAV BHANDAR", "Shopping", "GeneralStore"),
  ("R S ENTERPRISE", "Shopping", "GeneralStore"),
  ("SHREE ENTERPRISES", "Shopping", "GeneralStore"),
  ("RK", "Shopping", "GeneralStore"),
  ("HPCL", "Transport", "Fuel"),
  ("BPCL", "Transport", "Fuel"),
  ("IOCL", "Transport", "Fuel"),
  ("INDIANOIL", "Transport", "Fuel"),
  ("INDIAN OIL", "Transport", "Fuel"),
  ("BHARATPET", "Transport", "Fuel"),
  ("BHARAT PETROLEUM", "Transport", "Fuel"),
  ("HINDPETRO", "Transport", "Fuel"),
  ("HINDUSTAN PETROLEUM", "Transport", "Fuel"),
  ("3S SERVICE STATION", "Transport", "Fuel"),
  ("THREE S SERVICE", "Transport", "Fuel"),
  ("BABAR PETROL PUMP", "Transport", "Fuel"),
  ("BAFNA BROTHERS", "Transport", "Fuel"),
  ("MITALI SERVICE", "Transport", "Fuel"),
  ("ADHOC KANKARIYA SERVIC", "Transport", "Fuel"),
  ("ADHOC KANKARIYA SERVICE", "Transport", "Fuel"),
  ("SHAHID LT COL PRAKASH", "Transport", "Fuel"),
  ("BABJI PETROLEUM", "Transport", "Fuel"),
  ("DNYANESHWARI PETROLINK", "Transport", "Fuel"),
  ("KOTHRUD PETROL CIRCLE", "Transport", "Fuel"),
  ("KOTHRUD PETROL", "Transport", "Fuel"),
  ("HIGHWAY PETROLEUM CENT", "Transport", "Fuel"),
  ("SHOLAPUR MOTOR STORES", "Transport", "Fuel"),
  ("SHOLAPUR", "Transport", "Fuel"),
  ("SAMARTH SERVICE STAT", "Transport", "Fuel"),
  ("INDUSTRIAL SERVICE STA", "Transport", "Fuel"),
  ("SHRI SWAMI SAMARTH EN", "Transport", "Fuel"),
  ("BPCL SHREE SWAMI SHANK", "Transport", "Fuel"),
  ("BPCL MITALI SERVICE S", "Transport", "Fuel"),
  ("IOCL BAFNA BROTHERS", "Transport", "Fuel"),
  ("UBER", "Transport", "Cab"),
  ("OLA", "Transport", "Cab"),
  ("OLA CABS", "Transport", "Cab"),
  ("RAPIDO", "Transport", "BikeTaxi"),
  ("MERU", "Transport", "Cab"),
  ("REDBUS", "Transport", "PublicTransport"),
  ("IRCTC", "Transport", "PublicTransport"),
  ("FAMOUS AUTO CENTRE", "Transport", "AutoService"),
  ("EXCEL SERVICE CENTRE", "Transport", "AutoService"),
  ("AIRTEL", "Utilities", "MobileRecharge"),
  ("JIO", "Utilities", "MobileRecharge"),
  ("VODAFONE", "Utilities", "MobileRecharge"),
  ("VI-", "Utilities", "MobileRecharge"),
  ("VI ", "Utilities", "MobileRecharge"),
  ("BSNL", "Utilities", "MobileRecharge"),
  ("SUN DIRECT", "Utilities", "DTH"),
  ("TATASKY", "Utilities", "DTH"),
  ("TATA SKY", "Utilities", "DTH"),
  ("D2H", "Utilities", "DTH"),
  ("DISHTV", "Utilities", "DTH"),
  ("DISH TV", "Utilities", "DTH"),
  ("DTHRCG", "Utilities", "DTH"),
  ("HPGAS", "Utilities", "Gas"),
  ("HP GAS", "Utilities", "Gas"),
  ("BHARAT GAS", "Utilities", "Gas"),
  ("INDANE", "Utilities", "Gas"),
  ("BESCOM", "Utilities", "Electricity"),
  ("BSES", "Utilities", "Electricity"),
  ("TNEB", "Utilities", "Electricity"),
  ("MSEDCL", "Utilities", "Electricity"),
  ("TORRENTPOWER", "Utilities", "Electricity"),
  ("TORRENT POWER", "Utilities", "Electricity"),
  ("BBPS", "Utilities", "BillPayment"),
  ("NETFLIX", "Entertainment", "Streaming"),
  ("SPOTIFY", "Entertainment", "Music"),
  ("HOTSTAR", "Entertainment", "Streaming"),
  ("DISNEY", "Entertainment", "Streaming"),
  ("SONYLIV", "Entertainment", "Streaming"),
  ("SONY LIV", "Entertainment", "Streaming"),
  ("ZEE5", "Entertainment", "Streaming"),
  ("PRIME VIDEO", "Entertainment", "Streaming"),
  ("AMAZON PRIME", "Entertainment", "Streaming"),
  ("VOOT", "Entertainment", "Streaming"),
  ("ALT BALAJI", "Entertainment", "Streaming"),
  ("PAYTM", "Transfers", "ToBusiness"),
  ("PHONEPE", "Transfers", "ToBusiness"),
  ("GOOGLEPAY", "Transfers", "ToBusiness"),
  ("GPAY", "Transfers", "ToBusiness"),
  ("AMAZONPAY", "Transfers", "ToBusiness"),
  ("MOBIKWIK", "Transfers", "ToBusiness"),
  ("FREECHARGE", "Transfers", "ToBusiness"),
  ("RAZORPAY", "Transfers", "ToBusiness"),
  ("BILLDESK", "Transfers", "ToBusiness"),
  ("CASHFREE", "Transfers", "ToBusiness"),
  ("BHARATPEMERCHANT", "Transfers", "ToBusiness"),
  ("BHARATPE MERCHANT", "Transfers", "ToBusiness"),
  ("MAKEMYTRIP", "Travel", "FlightTickets"),
  ("EASEMYTRIP", "Travel", "FlightTickets"),
  ("YATRA", "Travel", "FlightTickets"),
  ("CLEARTRIP", "Travel", "FlightTickets"),
  ("GOIBIBO", "Travel", "Accommodation"),
  ("OYO", "Travel", "Accommodation"),
  ("TREEBO", "Travel", "Accommodation"),
  ("DREAM11", "Leisure", "Gaming"),
  ("DREAM11ONLINE", "Leisure", "Gaming"),
  ("DREAM11ON LINE", "Leisure", "Gaming"),
  ("MPL", "Leisure", "Gaming"),
  ("RUMMYCIRCLE", "Leisure", "Gaming"),
  ("SIMACES LEARNING LLP", "Education", "Courses"),
  ("SIMACES LEARNING", "Education", "Courses"),
  ("RESILIENT INNOVATIONS", "Education", "TechServices"),
  ("DR RAWLE DENTEL CLINIC", "Healthcare", "Consultation"),
  ("DR RAWLE DENTAL CLINIC", "Healthcare", "Consultation"),
  ("SALARY CREDIT", "Income", "Salary"),
  ("SALARYCREDIT", "Income", "Salary"),
  ("INT.PD", "Income", "Interest"),
  ("INT PD", "Income", "Interest"),
  ("INTEREST", "Income", "Interest"),
  ("NIKSHAY TB PATI", "Income", "Government"),
  ("ACHPFM-NIKSHAY TB PATI", "Income", "Government"),
  ("EMI PAYMENT", "Debt", "LoanEMI"),
  ("HDFC-LOAN", "Debt", "LoanEMI"),
  ("HDFC L-", "Debt", "LoanEMI"),
  ("ATM WDR", "Cash", "ATMWithdrawal"),
  ("ATMWDR", "Cash", "ATMWithdrawal"),
  ("ATMWDL", "Cash", "ATMWithdrawal"),
  ("ATM DEP", "Cash", "ATMDeposit"),
  ("ATMDEPOSIT", "Cash", "ATMDeposit"),
  ("QUARTERLY AVG BAL CHARGE", "BankCharges", "BalanceCharge"),
  ("QTRLY AVG BAL CHARGE", "BankCharges", "BalanceCharge"),
  ("SMS CHRG", "BankCharges", "SMS"),
  ("SMS CHARGES", "BankCharges", "SMS"),
  ("SMS_CHARGE", "BankCharges", "SMS"),
  ("CA KEEPING CHGS", "BankCharges", "Other"),
  ("ANNUAL_CARDFEE", "BankCharges", "CardFee"),
  ("ANNUAL CARD FEE", "BankCharges", "CardFee"),
  ("LATE FINE FEES", "BankCharges", "LateFee"),
  ("VLP CHARGES", "BankCharges", "Other"),
  ("PMSBY", "Insurance", "GovtScheme"),
  ("PMJJBY", "Insurance", "GovtScheme"),
  ("LIC", "Insurance", "Life"),
  ("HDFCLIFE", "Insurance", "Life"),
  ("SBILIFE", "Insurance", "Life"),
  ("ICICIPRULIFE", "Insurance", "Life"),
  ("ZERODHA", "Investment", "Stocks"),
  ("UPSTOX", "Investment", "Stocks"),
  ("GROWW", "Investment", "Stocks"),
  ("ANGEL ONE", "Investment", "Stocks")]

/-- Static UPI merchant table transcribed from regex_engine/upi_utils.py (insertion order preserved). -/
def UPI_MERCHANT_MAP : List (String × String × String) := [
  ("ZOMATO", "Dining", "FoodDelivery"),
  ("SWIGGY", "Dining", "FoodDelivery"),
  ("DUNZO", "Dining", "FoodDelivery"),
  ("EATFIT", "Dining", "FoodDelivery"),
  ("BOX8", "Dining", "FoodDelivery"),
  ("FAASOS", "Dining", "FoodDelivery"),
  ("HOTEL RAJ", "Dining", "Restaurant"),
  ("HOTEL RAYAT", "Dining", "Restaurant"),
  ("HOTEL SAMMAN", "Dining", "Restaurant"),
  ("GIRIDHAR VEG", "Dining", "Restaurant"),
  ("SAGAR RESTAURANT", "Dining", "Restaurant"),
  ("KFC", "Dining", "Restaurant"),
  ("MCDONALD", "Dining", "Restaurant"),
  ("DOMINOS", "Dining", "Restaurant"),
  ("PIZZA HUT", "Dining", "Restaurant"),
  ("PIZZAHUT", "Dining", "Restaurant"),
  ("CCD", "Dining", "Cafe"),
  ("CAFECOFFEEDAY", "Dining", "Cafe"),
  ("PUNERI CHAI", "Dining", "Cafe"),
  ("SHETKARI BHOJANALAY", "Dining", "SnacksAndBeverages"),
  ("SHREE SAINATH BHEL", "Dining", "SnacksAndBeverages"),
  ("MEENA SNACKS", "Dining", "SnacksAndBeverages"),
  ("DEEPAK SNACKS", "Dining", "SnacksAndBeverages"),
  ("SAI FOODS", "Dining", "SnacksAndBeverages"),
  ("ANUSHKA BHEL", "Dining", "SnacksAndBeverages"),
  ("BALAJI FAST FOOD", "Dining", "SnacksAndBeverages"),
  ("HARSH TEA", "Dining", "SnacksAndBeverages"),
  ("SONAI DAVANGIRI", "Dining", "SnacksAndBeverages"),
  ("DMART", "Groceries", "Supermarket"),
  ("BIGBASKET", "Groceries", "OnlineGroceries"),
  ("BBDAILY", "Groceries", "OnlineGroceries"),
  ("BB-", "Groceries", "OnlineGroceries"),
  ("JIOMART", "Groceries", "Supermarket"),
  ("JIO MART", "Groceries", "Supermarket"),
  ("ZEPT", "Groceries", "OnlineGroceries"),
  ("ZEPTO", "Groceries", "OnlineGroceries"),
  ("BLINKIT", "Groceries", "OnlineGroceries"),
  ("NATURESBASKET", "Groceries", "Supermarket"),
  ("SPENCERS", "Groceries", "Supermarket"),
  ("MOREMEGASTORE", "Groceries", "Supermarket"),
  ("STARQUICK", "Groceries", "Supermarket"),
  ("GURUKRUPA SUPER MARKET", "Groceries", "LocalShops"),
  ("GURUKRUPA", "Groceries", "LocalShops"),
  ("KATRAJ DAIRY", "Groceries", "LocalShops"),
  ("TRUPTI", "Groceries", "LocalShops"),
  ("VISHAL VEGETABLES", "Groceries", "LocalShops"),
  ("COSMOS", "Groceries", "LocalShops"),
  ("PJSB", "Groceries", "LocalShops"),
  ("SHRI AAIJI", "Groceries", "LocalShops"),
  ("AMAZON", "Shopping", "Online"),
  ("FLIPKART", "Shopping", "Online"),
  ("AJIO", "Shopping", "Fashion"),
  ("MYNTRA", "Shopping", "Fashion"),
  ("TATACLIQ", "Shopping", "Online"),
  ("TATANEU", "Shopping", "Online"),
  ("NYKAA", "Shopping", "Beauty"),
  ("MEESHO", "Shopping", "Online"),
  ("SNAPDEAL", "Shopping", "Online"),
  ("SHOPPERSSTOP", "Shopping", "Fashion"),
  ("LIFESTYLE", "Shopping", "Fashion"),
  ("MAXFASHION", "Shopping", "Fashion"),
  ("CROMA", "Shopping", "Electronics"),
  ("VIJAYSALES", "Shopping", "Electronics"),
  ("RELIANCE DIGITAL", "Shopping", "Electronics"),
  ("REL DIGITAL", "Shopping", "Electronics"),
  ("PANTALOONS", "Shopping", "Fashion"),
  ("BOMBAY STATIONERS", "Shopping", "Stationery"),
  ("IPRINT ENTERPRISES", "Shopping", "Stationery"),
  ("RIBBONS AND BALLOONS", "Shopping", "Decorations"),
  ("NEW MAYUR COLLECTION", "Shopping", "Fashion"),
  ("SUYASH DRESSES", "Shopping", "Fashion"),
  ("SHREE ENTERPRISES", "Shopping", "GeneralStore"),
  ("VIDHATA XEROX", "Shopping", "Stationery"),
  ("JEEVANDEEP STATIONERY", "Shopping", "Stationery"),
  ("PAVAN APPLE STORE", "Shopping", "Electronics"),
  ("SHRUTI MEDICAL", "Shopping", "Pharmacy"),
  ("DHARESHWAR MEDICAL", "Shopping", "Pharmacy"),
  ("SHRIKRISHNA MEDICAL", "Shopping", "Pharmacy"),
  ("UBER", "Transport", "Cab"),
  ("OLA", "Transport", "Cab"),
  ("RAPIDO", "Transport", "BikeTaxi"),
  ("MERU", "Transport", "Cab"),
  ("REDBUS", "Transport", "PublicTransport"),
  ("IRCTC", "Transport", "PublicTransport"),
  ("HPCL", "Transport", "Fuel"),
  ("BPCL", "Transport", "Fuel"),
  ("IOCL", "Transport", "Fuel"),
  ("INDIANOIL", "Transport", "Fuel"),
  ("BHARATPET", "Transport", "Fuel"),
  ("HINDPETRO", "Transport", "Fuel"),
  ("AIRTEL", "Utilities", "MobileRecharge"),
  ("JIO", "Utilities", "MobileRecharge"),
  ("VODAFONE", "Utilities", "MobileRecharge"),
  ("VI-", "Utilities", "MobileRecharge"),
  ("VI ", "Utilities", "MobileRecharge"),
  ("BSNL", "Utilities", "MobileRecharge"),
  ("SUN DIRECT", "Utilities", "DTH"),
  ("TATASKY", "Utilities", "DTH"),
  ("D2H", "Utilities", "DTH"),
  ("DISHTV", "Utilities", "DTH"),
  ("HPGAS", "Utilities", "Gas"),
  ("HP GAS", "Utilities", "Gas"),
  ("BESCOM", "Utilities", "Electricity"),
  ("BSES", "Utilities", "Electricity"),
  ("TNEB", "Utilities", "Electricity"),
  ("MSEDCL", "Utilities", "Electricity"),
  ("TORRENTPOWER", "Utilities", "Electricity"),
  ("NETFLIX", "Entertainment", "Streaming"),
  ("SPOTIFY", "Entertainment", "Music"),
  ("HOTSTAR", "Entertainment", "Streaming"),
  ("DISNEY", "Entertainment", "Streaming"),
  ("SONYLIV", "Entertainment", "Streaming"),
  ("ZEE5", "Entertainment", "Streaming"),
  ("PRIME VIDEO", "Entertainment", "Streaming"),
  ("PAYTM", "Transfers", "ToBusiness"),
  ("PHONEPE", "Transfers", "ToBusiness"),
  ("GOOGLEPAY", "Transfers", "ToBusiness"),
  ("GPAY", "Transfers", "ToBusiness"),
  ("AMAZONPAY", "Transfers", "ToBusiness"),
  ("MOBIKWIK", "Transfers", "ToBusiness"),
  ("FREECHARGE", "Transfers", "ToBusiness"),
  ("RAZORPAY", "Transfers", "ToBusiness"),
  ("BILLDESK", "Transfers", "ToBusiness"),
  ("CASHFREE", "Transfers", "ToBusiness"),
  ("BHARATPEMERCHANT", "Transfers", "ToBusiness"),
  ("BHARATPE", "Transfers", "ToBusiness"),
  ("MAKEMYTRIP", "Travel", "FlightTickets"),
  ("EASEMYTRIP", "Travel", "FlightTickets"),
  ("YATRA", "Travel", "FlightTickets"),
  ("CLEARTRIP", "Travel", "FlightTickets"),
  ("GOIBIBO", "Travel", "Accommodation"),
  ("OYO", "Travel", "Accommodation"),
  ("DREAM11", "Leisure", "Gaming"),
  ("MPL", "Leisure", "Gaming"),
  ("RUMMYCIRCLE", "Leisure", "Gaming"),
  ("GAMING", "Leisure", "Gaming"),
  ("SIMACES LEARNING", "Education", "Courses"),
  ("LIC", "Insurance", "Life"),
  ("HDFCLIFE", "Insurance", "Life"),
  ("SBILIFE", "Insurance", "Life"),
  ("ICICIPRULIFE", "Insurance", "Life"),
  ("ZERODHA", "Investment", "Stocks"),
  ("UPSTOX", "Investment", "Stocks"),
  ("GROWW", "Investment", "Stocks"),
  ("ANGEL ONE", "Investment", "Stocks"),
  ("BBPS", "Utilities", "BillPayment"),
  ("RAJ PAN SHOP", "Miscellaneous", "PanShop"),
  ("MUTAI PAN SHOP", "Miscellaneous", "PanShop")]

/-- The ordered label keys of the CATEGORY_REGEX table in regex_engine/category_rules.py (pattern lists abstracted by an oracle). -/
def CATEGORY_REGEX_LABELS : List String := [
  "Transport.Fuel",
  "Dining.Restaurant",
  "Dining.FoodDelivery",
  "Dining.SnacksAndBeverages",
  "Dining.Cafe",
  "Groceries.Supermarket",
  "Groceries.OnlineGroceries",
  "Groceries.LocalShops",
  "Shopping.Online",
  "Shopping.Fashion",
  "Shopping.Electronics",
  "Shopping.Beauty",
  "Shopping.Stationery",
  "Shopping.Pharmacy",
  "Shopping.Decorations",
  "Transport.Cab",
  "Transport.PublicTransport",
  "Transport.BikeTaxi",
  "Utilities.Electricity",
  "Utilities.Gas",
  "Utilities.Water",
  "Utilities.MobileRecharge",
  "Utilities.DTH",
  "Utilities.Internet",
  "Entertainment.Streaming",
  "Entertainment.Music",
  "Healthcare.Consultation",
  "Healthcare.Medicine",
  "Education.Courses",
  "PersonalCare.Salon",
  "Leisure.Gaming",
  "Income.Salary",
  "Income.Interest",
  "Income.Refund",
  "Income.Government",
  "Transfers.ToPerson",
  "Transfers.ToBusiness",
  "Cash.ATMWithdrawal",
  "Cash.ATMDeposit",
  "BankCharges.SMS",
  "BankCharges.BalanceCharge",
  "BankCharges.CardFee",
  "BankCharges.ATMFee",
  "BankCharges.Other",
  "Debt.LoanEMI",
  "Insurance.GovtScheme",
  "Insurance.Life",
  "Insurance.Health",
  "Government.Tax",
  "Government.RTO",
  "Government.PropertyTax",
  "Investment.MutualFunds",
  "Investment.Stocks",
  "Travel.Accommodation",
  "Travel.FlightTickets",
  "Miscellaneous.PanShop",
  "Miscellaneous.Enterprises",
  "Miscellaneous.Dresses"]

/-- The ordered vendor-name keys of the VENDOR_REGEX table in regex_engine/vendor_rules.py (pattern lists abstracted by an oracle). -/
def VENDOR_REGEX_NAMES : List String := [
  "Hotel/Restaurant",
  "Snacks/FastFood",
  "FoodDelivery",
  "Supermarket",
  "OnlineGrocery",
  "LocalGrocery",
  "OnlineShopping",
  "Fashion",
  "Electronics",
  "Stationery",
  "Pharmacy",
  "FuelStation",
  "CabService",
  "AutoService",
  "MobileRecharge",
  "DTH",
  "Electricity",
  "Gas",
  "Streaming",
  "Music",
  "DigitalWallet",
  "PaymentGateway",
  "BankTransfer",
  "ATM",
  "Government",
  "Education",
  "Healthcare",
  "Travel",
  "Hotel",
  "Gaming",
  "Insurance",
  "Investment",
  "PanShop",
  "GeneralStore"]


/-- Keyword table of the enhanced keyword detection step of
classify_with_regex (keyword, category, subcategory, confidence), in source
order. -/
def KEYWORDS_MAP : List (String × String × String × ℚ) := [
  ("RESTAURANT", "Dining", "Restaurant", mkRat 75 100),
  ("HOTEL", "Dining", "Restaurant", mkRat 75 100),
  ("CAFE", "Dining", "Cafe", mkRat 75 100),
  ("PETROL", "Transport", "Fuel", mkRat 80 100),
  ("PETROLEUM", "Transport", "Fuel", mkRat 80 100),
  ("GROCERY", "Groceries", "LocalShops", mkRat 75 100),
  ("SUPERMARKET", "Groceries", "Supermarket", mkRat 75 100),
  ("MEDICAL", "Shopping", "Pharmacy", mkRat 75 100),
  ("PHARMACY", "Shopping", "Pharmacy", mkRat 75 100),
  ("TAXI", "Transport", "Cab", mkRat 75 100),
  ("CAB", "Transport", "Cab", mkRat 75 100)]

/-- Stable insert of the descending-by-length sort: the element goes before
the first element that is not longer, so map entries of equal length keep
their insertion order, exactly as Python's stable sorted with reverse does. -/
def insertByLenDesc (x : String) : List String → List String
  | [] => [x]
  | y :: ys => if y.length ≤ x.length then x :: y :: ys else y :: insertByLenDesc x ys

/-- Stable sort of vendor keys by length, longest first (models
sorted(keys, key=len, reverse=True)). -/
def sortByLenDesc : List String → List String
  | [] => []
  | x :: xs => insertByLenDesc x (sortByLenDesc xs)

/-- Key list of the vendor map. -/
def vendorMapKeys : List String := VENDOR_CATEGORY_MAP.map (fun p => p.1)

/-- VENDOR_KEYS of regex_classifier.py: the vendor-map keys sorted by length
in descending order before any matching. -/
def VENDOR_KEYS : List String := sortByLenDesc vendorMapKeys

/-- Key list of the UPI merchant map. -/
def upiMapKeys : List String := UPI_MERCHANT_MAP.map (fun p => p.1)

/-- UPI_KEYS of upi_utils.py: the UPI merchant keys sorted by length in
descending order. -/
def UPI_KEYS : List String := sortByLenDesc upiMapKeys

/-- Dictionary access VENDOR_CATEGORY_MAP[key].  The default is unreachable
for keys drawn from VENDOR_KEYS, mirroring that Python indexing cannot raise
there. -/
def vendorLookup (key : String) : String × String :=
  (VENDOR_CATEGORY_MAP.lookup key).getD ("KEYERROR", "KEYERROR")

/-- Dictionary access UPI_MERCHANT_MAP[key]; same unreachable default. -/
def upiLookup (key : String) : String × String :=
  (UPI_MERCHANT_MAP.lookup key).getD ("KEYERROR", "KEYERROR")

/-- Python dict assignment meta[k] = v on an ordered key-value list: an
existing key is updated in place, a new key is appended. -/
def metaSet : List (String × String) → String → String → List (String × String)
  | [], k, v => [(k, v)]
  | (k0, v0) :: t, k, v => if k0 = k then (k0, v) :: t else (k0, v0) :: metaSet t k v

/-- Python dict setdefault: the key is added only when absent. -/
def metaSetdefault (m : List (String × String)) (k v : String) : List (String × String) :=
  match m.lookup k with
  | some _ => m
  | none => metaSet m k v

/-- Oracles standing for the compiled regular expressions of the rule
classifier.  Boolean fields model re.search of the correspondingly named
compiled pattern; the Option fields model the captured group of the three
UPI merchant extraction patterns, the POS merchant capture, the VPA handle
capture (prefix, domain) and the UPI transaction-id capture (id, merchant
hint).  categoryPatHit lbl tl tn models whether some pattern of
CATEGORY_REGEX[lbl] matches the lower or the normalised text; vendorPatHit
does the same for VENDOR_REGEX.  normalizeDesc stands for the regex-based
normalize_desc text cleanup and pyTitle for str.title; looksLikePerson for
the name-part heuristic _looks_like_person.  Every claim proved below holds
for every choice of these oracles, hence for the real patterns. -/
structure RegexEnv where
  normalizeDesc : String → String
  pyTitle : String → String
  upiPat1 : String → Option String
  upiPat2 : String → Option String
  upiPat3 : String → Option String
  salaryRe : String → Bool
  emiRe : String → Bool
  atmWdrRe : String → Bool
  atmDepRe : String → Bool
  intPdRe : String → Bool
  qtrChgRe : String → Bool
  smsChgRe : String → Bool
  elecRe : String → Bool
  gasRe : String → Bool
  insRe : String → Bool
  transferRe : String → Bool
  emipaymentRe : String → Bool
  hdfcLoanRe : String → Bool
  posCardRe : String → Bool
  posExtract : String → Option String
  categoryPatHit : String → String → String → Bool
  vendorPatHit : String → String → String → Bool
  upiHintRe : String → Bool
  vpaRe : String → Option (String × String)
  upiIdRe : String → Option (String × String)
  looksLikePerson : String → Bool

/-- Result of classify_upi (category may be Python None). -/
structure UpiResult where
  category : Option String
  subcategory : Option String
  vendor : Option String
  confidence : ℚ
  meta : List (String × String)
deriving DecidableEq

/-- UPI sub-resolver classify_upi from upi_utils.py: bail out without a UPI
hint; a VPA handle is matched against the merchant map (0.90), then the
person heuristic (ToPerson 0.80), else a generic business transfer (0.70);
with no VPA the transaction-id pattern is tried the same way at 0.85, 0.75
and 0.65; a UPI hint with no extractable detail gives PENDING at 0.30. -/
def classify_upi (env : RegexEnv) (text_norm : String) : UpiResult :=
  if !(env.upiHintRe text_norm) then ⟨none, none, none, 0, []⟩
  else
    let meta0 := [("matched_rule", "upi")]
    match env.vpaRe text_norm with
    | some (g1, g2) =>
      let handlePfx := pyUpper g1
      let handle_domain := pyUpper g2
      let meta := metaSet (metaSet (metaSet meta0 "handle"
        (handlePfx ++ "@" ++ handle_domain)) "handle_prefix" handlePfx)
        "handle_domain" handle_domain
      match UPI_KEYS.find? (fun key => pyContains handlePfx key) with
      | some key =>
        ⟨some (upiLookup key).1, some (upiLookup key).2, some (env.pyTitle handlePfx),
         mkRat 90 100, metaSet meta "matched_merchant_key" key⟩
      | none =>
        if env.looksLikePerson handlePfx then
          ⟨some "Transfers", some "ToPerson", some (env.pyTitle handlePfx), mkRat 80 100,
           metaSet meta "reason" "upi_person_detected"⟩
        else
          ⟨some "Transfers", some "ToBusiness", some (env.pyTitle handlePfx), mkRat 70 100,
           metaSet meta "reason" "upi_business_generic"⟩
    | none =>
      match env.upiIdRe text_norm with
      | some (txnid, g2) =>
        let merchant_hint := pyUpper g2
        let meta := metaSet (metaSet meta0 "transaction_id" txnid)
          "merchant_hint" merchant_hint
        match UPI_KEYS.find? (fun key => pyContains merchant_hint key) with
        | some key =>
          ⟨some (upiLookup key).1, some (upiLookup key).2, some (env.pyTitle merchant_hint),
           mkRat 85 100, metaSet meta "matched_merchant_key" key⟩
        | none =>
          if env.looksLikePerson merchant_hint then
            ⟨some "Transfers", some "ToPerson", some (env.pyTitle merchant_hint), mkRat 75 100,
             metaSet meta "reason" "upi_person_from_id"⟩
          else
            ⟨some "Transfers", some "ToBusiness", some (env.pyTitle merchant_hint), mkRat 65 100,
             metaSet meta "reason" "upi_business_from_id"⟩
      | none =>
        ⟨some "PENDING", some "UPI", none, mkRat 30 100,
         metaSet meta0 "reason" "upi_detected_but_no_details"⟩

/-- Word-level second pass of extract_vendor_from_map: at least eighty
percent of the distinct words of the key occur among the words of the
description. -/
def secondPassHit (desc_words : List String) (key : String) : Bool :=
  let key_words := (pySplitWs key).dedup
  !key_words.isEmpty &&
    decide (4 * key_words.length ≤
      5 * (key_words.filter (fun w => desc_words.contains w)).length)

/-- Partial third pass of extract_vendor_from_map: a single-word key inside
some word of the description scores 0.75; the first word of a multi-word key
inside the description scores 0.80. -/
def thirdPassHit (desc_norm : String) (desc_words : List String) (key : String) : Option ℚ :=
  let key_parts := pySplitWs key
  if key_parts.length = 1 then
    if desc_words.any (fun word => pyContains word key) then some (mkRat 75 100) else none
  else
    match key_parts.head? with
    | some main_part => if pyContains desc_norm main_part then some (mkRat 80 100) else none
    | none => none

/-- Three-tier vendor extraction extract_vendor_from_map of
regex_classifier.py over the length-sorted VENDOR_KEYS: exact substring at
0.95, word-level match at 0.85, partial match at 0.75 or 0.80.  Each tier
takes the first key of the sorted list that fires. -/
def extract_vendor_from_map (desc_norm : String) : Option (String × ℚ) :=
  let desc_words := pySplitWs desc_norm
  match VENDOR_KEYS.find? (fun key => pyContains desc_norm key) with
  | some key => some (key, mkRat 95 100)
  | none =>
    match VENDOR_KEYS.find? (secondPassHit desc_words) with
    | some key => some (key, mkRat 85 100)
    | none =>
      VENDOR_KEYS.findSome? (fun key =>
        (thirdPassHit desc_norm desc_words key).map (fun c => (key, c)))

/-- The empty-input result of classify_with_regex. -/
def pendingEmptyRegex : RegexResult := ⟨"PENDING", none, none, 0, [("reason", "empty")]⟩

/-- Mutable rule state of classify_with_regex between its steps. -/
structure RuleState where
  category : Option String
  subcategory : Option String
  vendor : Option String
  confidence : ℚ
  meta : List (String × String)
deriving DecidableEq

/-- Python truthiness failure of an optional string (None or empty). -/
def optFalsy (o : Option String) : Bool := o == none || o == some ""

/-- One extracted UPI merchant checked against the vendor map with the
two-sided containment test; a hit returns the mapped category pair at 0.90
with the title-cased key as vendor. -/
def upiMerchantHit (env : RegexEnv) (g : Option String) : Option RegexResult :=
  match g with
  | none => none
  | some m =>
    let upi_merchant := pyStrip m
    match VENDOR_KEYS.find? (fun key =>
        pyContains upi_merchant key || pyContains key upi_merchant) with
    | some key =>
      some ⟨(vendorLookup key).1, some (vendorLookup key).2, some (env.pyTitle key), mkRat 90 100,
        [("matched_rule", "upi_vendor"), ("upi_merchant", upi_merchant)]⟩
    | none => none

/-- The UPI merchant-extraction step of classify_with_regex: only on text
containing UPI, the three extraction patterns are tried in order and each
extracted merchant is checked against the vendor map; a miss falls through to
the next pattern. -/
def upiPatternScan (env : RegexEnv) (text_norm : String) : Option RegexResult :=
  if pyContains text_norm "UPI" then
    match upiMerchantHit env (env.upiPat1 text_norm) with
    | some r => some r
    | none =>
      match upiMerchantHit env (env.upiPat2 text_norm) with
      | some r => some r
      | none => upiMerchantHit env (env.upiPat3 text_norm)
  else none

/-- The non-returning elif chain of semantic rules (ATM withdrawal and
deposit, interest, quarterly charge, SMS charge, electricity, gas, government
insurance, NEFT-IMPS-RTGS transfer), each raising the confidence to its
fixed floor and defaulting the vendor. -/
def semanticElifChain (env : RegexEnv) (text_norm : String) (st : RuleState) : RuleState :=
  if env.atmWdrRe text_norm then
    { st with
        category := some "Cash", subcategory := some "ATMWithdrawal",
        vendor := some (pyOrDefault st.vendor "ATM"),
        confidence := pyMax st.confidence (mkRat 90 100),
        meta := metaSet st.meta "matched_rule" "atm_wdr" }
  else if env.atmDepRe text_norm then
    { st with
        category := some "Cash", subcategory := some "ATMDeposit",
        vendor := some (pyOrDefault st.vendor "ATM"),
        confidence := pyMax st.confidence (mkRat 90 100),
        meta := metaSet st.meta "matched_rule" "atm_dep" }
  else if env.intPdRe text_norm then
    { st with
        category := some "Income", subcategory := some "Interest",
        vendor := some (pyOrDefault st.vendor "BankInterest"),
        confidence := pyMax st.confidence (mkRat 90 100),
        meta := metaSet st.meta "matched_rule" "interest" }
  else if env.qtrChgRe text_norm then
    { st with
        category := some "BankCharges", subcategory := some "BalanceCharge",
        vendor := some (pyOrDefault st.vendor "BankFee"),
        confidence := pyMax st.confidence (mkRat 85 100),
        meta := metaSet st.meta "matched_rule" "qtr_charge" }
  else if env.smsChgRe text_norm then
    { st with
        category := some "BankCharges", subcategory := some "SMS",
        vendor := some (pyOrDefault st.vendor "BankFee"),
        confidence := pyMax st.confidence (mkRat 85 100),
        meta := metaSet st.meta "matched_rule" "sms_charge" }
  else if env.elecRe text_norm then
    { st with
        category := some "Utilities", subcategory := some "Electricity",
        vendor := some (pyOrDefault st.vendor "ElectricityBoard"),
        confidence := pyMax st.confidence (mkRat 90 100),
        meta := metaSet st.meta "matched_rule" "electricity" }
  else if env.gasRe text_norm then
    { st with
        category := some "Utilities", subcategory := some "Gas",
        vendor := some (pyOrDefault st.vendor "GasProvider"),
        confidence := pyMax st.confidence (mkRat 90 100),
        meta := metaSet st.meta "matched_rule" "gas" }
  else if env.insRe text_norm then
    { st with
        category := some "Insurance", subcategory := some "GovtScheme",
        vendor := some (pyOrDefault st.vendor "GovtInsurance"),
        confidence := pyMax st.confidence (mkRat 90 100),
        meta := metaSet st.meta "matched_rule" "govt_insurance" }
  else if env.transferRe text_norm && optFalsy st.category then
    { st with
        category := some "Transfers", subcategory := some "ToPerson",
        vendor := some (pyOrDefault st.vendor "BankTransfer"),
        confidence := pyMax st.confidence (mkRat 70 100),
        meta := metaSet st.meta "matched_rule" "bank_transfer" }
  else st

/-- POS merchant handling: with no category yet and a card-network POS hit,
the extracted merchant is checked against the vendor map and a hit returns at
0.85; otherwise the state is unchanged. -/
def posStep (env : RegexEnv) (text_norm : String) (st : RuleState) : Option RegexResult :=
  if optFalsy st.category && env.posCardRe text_norm then
    match env.posExtract text_norm with
    | some pm =>
      let pos_merchant := pyStrip pm
      match VENDOR_KEYS.find? (fun key => pyContains pos_merchant key) with
      | some key =>
        some ⟨(vendorLookup key).1, some (vendorLookup key).2, some (env.pyTitle key), mkRat 85 100,
          metaSet (metaSet st.meta "matched_rule" "pos_vendor") "pos_merchant" pos_merchant⟩
      | none => none
    | none => none
  else none

/-- CATEGORY_REGEX table fallback: only with no category yet, the first label
whose pattern list matches sets category and subcategory from the dotted
label at confidence floor 0.80.  The label stands in for the matched pattern
in the recorded hit. -/
def categoryRegexStep (env : RegexEnv) (text_lower text_norm : String)
    (st : RuleState) : RuleState :=
  if st.category == none then
    match CATEGORY_REGEX_LABELS.find? (fun lbl => env.categoryPatHit lbl text_lower text_norm) with
    | some lbl =>
      let parts := pySplitChar '.' lbl
      { st with
          category := some (parts.headD ""), subcategory := parts[1]?,
          confidence := pyMax st.confidence (mkRat 80 100),
          meta := metaSet (metaSet st.meta "matched_rule" "category_regex") "category_hit" lbl }
    | none => st
  else st

/-- VENDOR_REGEX table fallback: only with no vendor yet, the first vendor
name whose pattern list matches sets the vendor, sets the category to
Uncategorized when none is set, and raises the confidence floor to 0.70. -/
def vendorRegexStep (env : RegexEnv) (text_lower text_norm : String)
    (st : RuleState) : RuleState :=
  if st.vendor == none then
    match VENDOR_REGEX_NAMES.find? (fun name => env.vendorPatHit name text_lower text_norm) with
    | some name =>
      { st with
          vendor := some name,
          category := if st.category == none then some "Uncategorized" else st.category,
          confidence := pyMax st.confidence (mkRat 70 100),
          meta := metaSetdefault (metaSet st.meta "vendor_hit" name) "matched_rule" "vendor_regex" }
    | none => st
  else st

/-- Keyword-table fallback: only with no category yet, the first keyword
contained in the normalised text sets its category pair. -/
def keywordStep (text_norm : String) (st : RuleState) : RuleState :=
  if st.category == none then
    match KEYWORDS_MAP.find? (fun e => pyContains text_norm e.1) with
    | some (kw, cat, subcat, conf) =>
      { st with
          category := some cat, subcategory := some subcat,
          confidence := pyMax st.confidence conf,
          meta := metaSet (metaSet st.meta "matched_rule" "keyword_detection") "keyword" kw }
    | none => st
  else st

/-- Final fallback of classify_with_regex: with no category the result is
PENDING at confidence 0 with the normalised text recorded; otherwise the
accumulated state is returned. -/
def finalResult (text_norm : String) (st : RuleState) : RegexResult :=
  match st.category with
  | none => ⟨"PENDING", none, st.vendor, 0,
      metaSet (metaSetdefault st.meta "reason" "no_regex_match") "text_norm" text_norm⟩
  | some c => ⟨c, st.subcategory, st.vendor, st.confidence, st.meta⟩

/-- Steps 2 to 6 of classify_with_regex after the vendor-map stage: the
early-returning EMI-payment, salary and generic EMI rules, then the
non-returning elif chain, the POS step, the category-regex, vendor-regex and
keyword fallbacks, and the final PENDING fallback. -/
def afterVendorSteps (env : RegexEnv) (text_lower text_norm : String)
    (st : RuleState) : RegexResult :=
  if env.emipaymentRe text_norm || env.hdfcLoanRe text_norm then
    ⟨"Debt", some "LoanEMI", some (pyOrDefault st.vendor "HDFC Loan"), mkRat 95 100,
     metaSet st.meta "matched_rule" "emi"⟩
  else if env.salaryRe text_norm ||
      (pyContains text_norm "CREDIT" && pyContains text_norm "SALARY") then
    ⟨"Income", some "Salary", some (pyOrDefault st.vendor "Employer"), mkRat 98 100,
     metaSet st.meta "matched_rule" "salary"⟩
  else if env.emiRe text_norm then
    ⟨"Debt", some "LoanEMI", some (pyOrDefault st.vendor "LoanProvider"), mkRat 90 100,
     metaSet st.meta "matched_rule" "emi"⟩
  else
    let st1 := semanticElifChain env text_norm st
    match posStep env text_norm st1 with
    | some r => r
    | none =>
      finalResult text_norm
        (keywordStep text_norm
          (vendorRegexStep env text_lower text_norm
            (categoryRegexStep env text_lower text_norm st1)))

/-- The vendor-map stage of classify_with_regex: an extraction hit at or
above 0.85 returns immediately; a lower hit seeds the rule state and
continues into the semantic rules; a miss continues with an empty state. -/
def vendorMapStage (env : RegexEnv) (text_lower text_norm : String) : RegexResult :=
  match extract_vendor_from_map text_norm with
  | some (vendor_key, vendor_confidence) =>
    let st : RuleState := ⟨some (vendorLookup vendor_key).1, some (vendorLookup vendor_key).2,
      some (env.pyTitle vendor_key),
      vendor_confidence, [("matched_rule", "vendor_map"), ("vendor_key", vendor_key)]⟩
    if mkRat 85 100 ≤ vendor_confidence then
      ⟨(vendorLookup vendor_key).1, some (vendorLookup vendor_key).2,
       some (env.pyTitle vendor_key), vendor_confidence, st.meta⟩
    else afterVendorSteps env text_lower text_norm st
  | none => afterVendorSteps env text_lower text_norm ⟨none, none, none, 0, []⟩

/-- Acceptance guard on the general UPI sub-result: a non-None category that
is neither PENDING nor the generic Transfers-ToBusiness guess returns
immediately (with the matched-rule tag defaulted); anything else falls
through to the vendor-map stage. -/
def acceptUpi (u : UpiResult) : Option RegexResult :=
  match u.category with
  | some uc =>
    if uc ≠ "PENDING" ∧ ¬(uc = "Transfers" ∧ u.subcategory = some "ToBusiness") then
      some ⟨uc, u.subcategory, u.vendor, u.confidence,
        metaSetdefault u.meta "matched_rule" "upi"⟩
    else none
  | none => none

/-- The body of classify_with_regex after text preparation: the UPI merchant
extraction, the accepted general UPI verdict, then the vendor-map stage and
the remaining rule steps. -/
def classifyAfterNorm (env : RegexEnv) (text_lower text_norm : String) : RegexResult :=
  match upiPatternScan env text_norm with
  | some r => r
  | none =>
    match acceptUpi (classify_upi env text_norm) with
    | some r => r
    | none => vendorMapStage env text_lower text_norm

/-- Rule classifier classify_with_regex of regex_classifier.py on a string
input: the empty-input guard, then the stripped text is lower-cased and
normalised and handed to the rule steps. -/
def classify_with_regex (env : RegexEnv) (description : String) : RegexResult :=
  if description = "" then pendingEmptyRegex
  else
    classifyAfterNorm env (pyLower (pyStrip description))
      (env.normalizeDesc (pyStrip description))

/-- Entry of classify_with_regex on a dynamically-typed input: a falsy input
returns the empty-reason PENDING result before any string method runs; a
truthy non-text value reaches description.strip() and raises AttributeError,
uncaught in this stage. -/
def classify_with_regex_entry (env : RegexEnv) : PyInput → Except PyError RegexResult
  | .pyNone => .ok pendingEmptyRegex
  | .str s => .ok (classify_with_regex env s)
  | .int n => if n = 0 then .ok pendingEmptyRegex else .error .attributeError

/-! Helper lemmas. -/

lemma pyMax_le {a b c : ℚ} (h1 : a ≤ c) (h2 : b ≤ c) : pyMax a b ≤ c := by
  unfold pyMax; split <;> assumption

lemma le_pyMax_right (a b : ℚ) : b ≤ pyMax a b := by
  unfold pyMax; split <;> simp [*]

lemma pyMin_one_of_le {y : ℚ} (h : y ≤ 1) : pyMin 1 y = y := by
  unfold pyMin
  split
  · linarith
  · rfl

lemma pyMax_nonneg_le_one {x : ℚ} (h : x ≤ 1) : pyMax 0 x ≤ 1 := by
  unfold pyMax; split <;> simp [h]

/-! Theorems for the claims, in claim order. -/

/-- C2: a transaction is offered to Stage 3 exactly when its category is null
or PENDING, or its classification_source is regex or heuristic with
confidence strictly below the MiniLM threshold (default 0.50); and to Stage 4
exactly when its category is PENDING, or its classification_source is bert
with confidence strictly below the LLM fallback threshold (default 0.25). -/
theorem C2_stage_selection_predicates (txns : List DBTxn) (t : DBTxn) :
    MINILM_LOW_CONF_THRESHOLD = 0.5 ∧ LLM_FALLBACK_CONF_THRESHOLD = 0.25 ∧
    (t ∈ fetch_transactions_for_minilm MINILM_LOW_CONF_THRESHOLD txns ↔
      t ∈ txns ∧ (t.category = none ∨ t.category = some "PENDING" ∨
        ((t.classification_source = some "regex" ∨
          t.classification_source = some "heuristic") ∧
          t.confidence < MINILM_LOW_CONF_THRESHOLD))) ∧
    (t ∈ fetch_transactions_for_llm LLM_FALLBACK_CONF_THRESHOLD txns ↔
      t ∈ txns ∧ (t.category = some "PENDING" ∨
        (t.classification_source = some "bert" ∧
          t.confidence < LLM_FALLBACK_CONF_THRESHOLD))) := by
  refine ⟨by norm_num [MINILM_LOW_CONF_THRESHOLD, Rat.mkRat_eq_div],
          by norm_num [LLM_FALLBACK_CONF_THRESHOLD, Rat.mkRat_eq_div], ?_, ?_⟩
  · simp [fetch_transactions_for_minilm, List.mem_filter, minilmSelect, or_assoc,
      and_assoc]
  · simp [fetch_transactions_for_llm, List.mem_filter, llmSelect, and_assoc]

lemma llmRetryGo_all_fail (classify : Nat → Option (List LLMResult)) (base : ℚ)
    (descs : List String) (h : ∀ k, classify k = none) :
    ∀ remaining attempt, llmRetryGo classify base descs attempt remaining =
      ⟨descs.map fun _ => llmFailedResult,
       (List.range remaining).map (fun i => base ^ (attempt + i + 1))⟩ := by
  intro remaining
  induction remaining with
  | zero => intro attempt; rfl
  | succ r ih =>
    intro attempt
    show (match classify attempt with
      | some results => RetryTrace.mk results []
      | none =>
        let next := attempt + 1
        let rest := llmRetryGo classify base descs next r
        ⟨rest.results, base ^ next :: rest.sleeps⟩) = _
    rw [h attempt]
    simp only [ih (attempt + 1)]
    refine congrArg (RetryTrace.mk _) ?_
    rw [List.range_succ_eq_map, List.map_cons, List.map_map]
    refine congrArg₂ List.cons ?_ (List.map_congr_left ?_)
    · congr 1
    · intro i _
      simp only [Function.comp_apply]
      congr 1
      omega

/-- C3: when every attempt of the LLM batch call raises, the retry wrapper
makes exactly the configured number of attempts (default ceiling 3), sleeps
base to the power of the attempt count after each failure, and returns one
degraded (PENDING, null, 0.0, llm_failed) result per description instead of
propagating the exception (its result type has no error case). -/
theorem C3_llm_retry_exhaustion (classify : Nat → Option (List LLMResult)) (base : ℚ)
    (descriptions : List String) (h : ∀ k, classify k = none) :
    LLM_RETRY_MAX = 3 ∧
    (llm_classify_with_retry classify base LLM_RETRY_MAX descriptions).results.length =
      descriptions.length ∧
    (∀ r ∈ (llm_classify_with_retry classify base LLM_RETRY_MAX descriptions).results,
      r = llmFailedResult) ∧
    (llm_classify_with_retry classify base LLM_RETRY_MAX descriptions).sleeps =
      [base ^ 1, base ^ 2, base ^ 3] := by
  have key := llmRetryGo_all_fail classify base descriptions h LLM_RETRY_MAX 0
  unfold llm_classify_with_retry
  rw [key]
  refine ⟨rfl, by simp, ?_, ?_⟩
  · intro r hr
    simp only [List.mem_map] at hr
    obtain ⟨_, _, hr⟩ := hr
    exact hr.symm
  · show (List.range 3).map (fun i => base ^ (0 + i + 1)) = _
    simp [List.range_succ]

/-- Witness for C3 at a concrete always-failing classify and a two-element
batch. -/
theorem C3_witness :
    (llm_classify_with_retry (fun _ => none) (mkRat 2 1) LLM_RETRY_MAX ["a", "b"]).results.length = 2 ∧
    (llm_classify_with_retry (fun _ => none) (mkRat 2 1) LLM_RETRY_MAX ["a", "b"]).sleeps =
      [mkRat 2 1 ^ 1, mkRat 2 1 ^ 2, mkRat 2 1 ^ 3] := by
  have h := C3_llm_retry_exhaustion (fun _ => none) (mkRat 2 1) ["a", "b"] (fun _ => rfl)
  exact ⟨h.2.1, h.2.2.2⟩

/-- C4: the Stage 3 confidence mapping on best similarity raw and second-best
second, with margin their difference: the top band (raw at least 0.80 and
margin above 0.03) gives 1.0; otherwise the middle band (raw at least 0.50)
gives (raw minus 0.50) over 0.30 plus half the margin, clamped to the unit
interval; otherwise (raw minus 0.42) over 0.08 clamped to the unit interval
(the code writes max 0 only there, and the clamp above 1 is vacuous in that
band). -/
theorem C4_minilm_confidence_mapping (raw second : ℚ) :
    (HIGH_CONF_SIM ≤ raw ∧ mkRat 3 100 < raw - second →
      confidenceFromSims raw second = 1) ∧
    (¬(HIGH_CONF_SIM ≤ raw ∧ mkRat 3 100 < raw - second) →
      MIN_SIM_FOR_CONFIDENT ≤ raw →
      confidenceFromSims raw second =
        pyMin 1 (pyMax 0 ((raw - mkRat 50 100) / mkRat 30 100 +
          (raw - second) * mkRat 5 10))) ∧
    (raw < MIN_SIM_FOR_CONFIDENT →
      confidenceFromSims raw second =
        pyMin 1 (pyMax 0 ((raw - mkRat 42 100) / mkRat 8 100))) := by
  refine ⟨?_, ?_, ?_⟩
  · intro hb
    unfold confidenceFromSims
    rw [if_pos hb]
  · intro hb hm
    unfold confidenceFromSims
    rw [if_neg hb, if_pos hm]
    have hden : HIGH_CONF_SIM - MIN_SIM_FOR_CONFIDENT = mkRat 30 100 := by
      norm_num [HIGH_CONF_SIM, MIN_SIM_FOR_CONFIDENT, Rat.mkRat_eq_div]
    have h50 : MIN_SIM_FOR_CONFIDENT = mkRat 50 100 := rfl
    rw [hden, h50]
  · intro hlow
    unfold confidenceFromSims
    have hb : ¬(HIGH_CONF_SIM ≤ raw ∧ mkRat 3 100 < raw - second) := by
      rintro ⟨h1, -⟩
      have hx : MIN_SIM_FOR_CONFIDENT < HIGH_CONF_SIM := by
        norm_num [MIN_SIM_FOR_CONFIDENT, HIGH_CONF_SIM, Rat.mkRat_eq_div]
      linarith
    rw [if_neg hb, if_neg (not_le.mpr hlow)]
    have hden : MIN_SIM_FOR_CONFIDENT - LOWER_SIM_FOR_PENDING = mkRat 8 100 := by
      norm_num [MIN_SIM_FOR_CONFIDENT, LOWER_SIM_FOR_PENDING, Rat.mkRat_eq_div]
    have h42 : LOWER_SIM_FOR_PENDING = mkRat 42 100 := rfl
    rw [hden, h42]
    have hlt : (raw - mkRat 42 100) / mkRat 8 100 < 1 := by
      rw [div_lt_one (by norm_num [Rat.mkRat_eq_div] : (0 : ℚ) < mkRat 8 100)]
      have h50 : MIN_SIM_FOR_CONFIDENT = mkRat 50 100 := rfl
      rw [h50] at hlow
      norm_num [Rat.mkRat_eq_div] at hlow ⊢
      linarith
    rw [pyMin_one_of_le (pyMax_nonneg_le_one (le_of_lt hlt))]

/-- Witness for C4 at concrete similarities in each band. -/
theorem C4_witness :
    confidenceFromSims (mkRat 90 100) (mkRat 50 100) = 1 := by
  exact (C4_minilm_confidence_mapping (mkRat 90 100) (mkRat 50 100)).1
    (by constructor <;> norm_num [HIGH_CONF_SIM, Rat.mkRat_eq_div])

/-- An oracle valuation of the rule classifier where no pattern matches and
no group captures; normalisation is modelled by upper-casing (the first step
of the real normalize_desc) and title-casing by the identity. -/
def envAllMiss : RegexEnv where
  normalizeDesc := pyUpper
  pyTitle := id
  upiPat1 := fun _ => none
  upiPat2 := fun _ => none
  upiPat3 := fun _ => none
  salaryRe := fun _ => false
  emiRe := fun _ => false
  atmWdrRe := fun _ => false
  atmDepRe := fun _ => false
  intPdRe := fun _ => false
  qtrChgRe := fun _ => false
  smsChgRe := fun _ => false
  elecRe := fun _ => false
  gasRe := fun _ => false
  insRe := fun _ => false
  transferRe := fun _ => false
  emipaymentRe := fun _ => false
  hdfcLoanRe := fun _ => false
  posCardRe := fun _ => false
  posExtract := fun _ => none
  categoryPatHit := fun _ _ _ => false
  vendorPatHit := fun _ _ _ => false
  upiHintRe := fun _ => false
  vpaRe := fun _ => none
  upiIdRe := fun _ => none
  looksLikePerson := fun _ => false

/-- C5 counterexample: a truthy non-text input (the integer 123) makes
classify_with_regex reach description.strip() and raise AttributeError
instead of returning a PENDING result, refuting the never-raises clause of
the claim for Stage 1 (the same happens in Stage 2). -/
theorem C5_counterexample :
    classify_with_regex_entry envAllMiss (.int 123) = .error .attributeError := rfl

/-- C5 amended: the empty string, None and falsy non-text values give a
PENDING result at confidence 0 with reason-tagged metadata at every stage
(reason empty at Stages 1 and 2, empty_text at Stage 3); truthy non-text
values raise AttributeError out of Stages 1 and 2, while Stage 3 alone
catches the error and returns PENDING at 0 with exception-tagged metadata. -/
theorem C5_malformed_input_amended :
    (∀ env : RegexEnv,
      classify_with_regex_entry env (.str "") = .ok pendingEmptyRegex ∧
      classify_with_regex_entry env .pyNone = .ok pendingEmptyRegex ∧
      classify_with_regex_entry env (.int 0) = .ok pendingEmptyRegex) ∧
    (∀ body : String → HeurResult,
      classify_with_heuristics_entry body (.str "") = .ok heurPendingEmpty ∧
      classify_with_heuristics_entry body .pyNone = .ok heurPendingEmpty ∧
      classify_with_heuristics_entry body (.int 0) = .ok heurPendingEmpty) ∧
    (∀ body : String → Except PyError MiniResult,
      classify_single_entry body (.str "") = ⟨"PENDING", 0, some "empty_text"⟩ ∧
      classify_single_entry body .pyNone = ⟨"PENDING", 0, some "empty_text"⟩) ∧
    (∀ (env : RegexEnv) (n : Int), n ≠ 0 →
      classify_with_regex_entry env (.int n) = .error .attributeError) ∧
    (∀ (body : String → HeurResult) (n : Int), n ≠ 0 →
      classify_with_heuristics_entry body (.int n) = .error .attributeError) ∧
    (∀ (body : String → Except PyError MiniResult) (n : Int), n ≠ 0 →
      classify_single_entry body (.int n) = ⟨"PENDING", 0, some "exception"⟩) := by
  refine ⟨fun env => ⟨rfl, rfl, rfl⟩, fun body => ⟨rfl, rfl, rfl⟩,
          fun body => ⟨rfl, rfl⟩, ?_, ?_, ?_⟩
  · intro env n hn
    simp [classify_with_regex_entry, hn]
  · intro body n hn
    simp [classify_with_heuristics_entry, hn]
  · intro body n hn
    simp [classify_single_entry, hn]

/-- Witness for the amended C5 at the concrete non-text input 7. -/
theorem C5_witness :
    classify_with_regex_entry envAllMiss (.int 7) = .error .attributeError ∧
    classify_with_heuristics_entry (fun _ => heurPendingEmpty) (.int 7) =
      .error .attributeError ∧
    classify_single_entry (fun s => .ok ⟨s, 1, none⟩) (.int 7) =
      ⟨"PENDING", 0, some "exception"⟩ := by
  refine ⟨C5_malformed_input_amended.2.2.2.1 envAllMiss 7 (by decide),
          C5_malformed_input_amended.2.2.2.2.1 _ 7 (by decide),
          C5_malformed_input_amended.2.2.2.2.2 _ 7 (by decide)⟩

/-- Whether some debit-like cell of the row is populated. -/
def outflowPopulated (tx : RawRow) : Bool := (debitFields tx).any (fun p => hasValue p.2)

/-- Whether some credit-like cell of the row is populated. -/
def inflowPopulated (tx : RawRow) : Bool := (creditFields tx).any (fun p => hasValue p.2)

/-- The row of the C6 counterexample: its only populated amount cell is a
debit of the literal string 0. -/
def c6Row : RawRow := { date := some "01-01-2023", description := some "X", debit := some "0" }

/-- The transaction c6Row normalizes to. -/
def c6Txn : NormalizedTxn :=
  ⟨1, 1, ⟨2023, 1, 1⟩, "X", 0, none, none, none, 0, none⟩

/-- C6 counterexample: a row whose debit cell holds the string 0 normalizes
to amount 0 although an outflow field is populated, refuting the claim's
biconditional that amount is negative exactly when an outflow field is
populated. -/
theorem C6_counterexample :
    normalize_txn 2026 c6Row 1 1 = some c6Txn ∧
    c6Txn.amount = 0 ∧ outflowPopulated c6Row = true := by
  refine ⟨by decide, rfl, by decide⟩

lemma ratAbs_nonneg (q : ℚ) : 0 ≤ ratAbs q := by
  unfold ratAbs; split <;> linarith

lemma ratAbs_eq_zero_iff {q : ℚ} : ratAbs q = 0 ↔ q = 0 := by
  unfold ratAbs; split <;> constructor <;> intro h <;> linarith

lemma ratAbs_pos_of_ne {q : ℚ} (h : q ≠ 0) : 0 < ratAbs q := by
  rcases lt_or_eq_of_le (ratAbs_nonneg q) with hlt | heq
  · exact hlt
  · exact absurd (ratAbs_eq_zero_iff.mp heq.symm) h

lemma infer_debit_eq {tx : RawRow} {key : String} {raw : Option String}
    (hf : (debitFields tx).find? (fun p => hasValue p.2) = some (key, raw)) :
    inferAmountFromRawFields tx = (-(ratAbs (clean_amount raw)), some key) := by
  unfold inferAmountFromRawFields
  rw [hf]

lemma infer_credit_eq {tx : RawRow} {key : String} {raw : Option String}
    (hd : (debitFields tx).find? (fun p => hasValue p.2) = none)
    (hf : (creditFields tx).find? (fun p => hasValue p.2) = some (key, raw)) :
    inferAmountFromRawFields tx = (ratAbs (clean_amount raw), some key) := by
  unfold inferAmountFromRawFields
  rw [hd, hf]

lemma infer_none_eq {tx : RawRow}
    (hd : (debitFields tx).find? (fun p => hasValue p.2) = none)
    (hc : (creditFields tx).find? (fun p => hasValue p.2) = none) :
    inferAmountFromRawFields tx = (0, none) := by
  unfold inferAmountFromRawFields
  rw [hd, hc]

/-- C6 amended: for a normalized row whose direct amount cleans to zero, the
stored amount is the value of the debit-then-credit field scan: the first
populated debit-like cell stores its cleaned absolute value negated (and is
recorded as source), else the first populated credit-like cell stores it
positive, else the amount is 0.0 with no source; consequently the amount is
negative exactly when the debit scan hits a cell cleaning to a nonzero value,
and positive exactly when no debit-like cell is populated and the credit scan
hits a cell cleaning to a nonzero value. -/
theorem C6_sign_convention_amended (cy : Nat) (tx : RawRow) (sid uid : Nat)
    (t : NormalizedTxn) (h : normalize_txn cy tx sid uid = some t)
    (hz : clean_amount tx.amount = 0) :
    t.amount = (inferAmountFromRawFields tx).1 ∧
    (∀ key raw, (debitFields tx).find? (fun p => hasValue p.2) = some (key, raw) →
      t.amount = -(ratAbs (clean_amount raw)) ∧
      (inferAmountFromRawFields tx).2 = some key) ∧
    ((debitFields tx).find? (fun p => hasValue p.2) = none →
      ∀ key raw, (creditFields tx).find? (fun p => hasValue p.2) = some (key, raw) →
      t.amount = ratAbs (clean_amount raw) ∧
      (inferAmountFromRawFields tx).2 = some key) ∧
    ((debitFields tx).find? (fun p => hasValue p.2) = none →
      (creditFields tx).find? (fun p => hasValue p.2) = none →
      t.amount = 0 ∧ (inferAmountFromRawFields tx).2 = none) ∧
    (t.amount < 0 ↔ ∃ key raw,
      (debitFields tx).find? (fun p => hasValue p.2) = some (key, raw) ∧
      clean_amount raw ≠ 0) ∧
    (0 < t.amount ↔ (debitFields tx).find? (fun p => hasValue p.2) = none ∧
      ∃ key raw, (creditFields tx).find? (fun p => hasValue p.2) = some (key, raw) ∧
      clean_amount raw ≠ 0) := by
  have hamt : t.amount = (inferAmountFromRawFields tx).1 := by
    simp only [normalize_txn] at h
    split at h
    · cases h
    · split at h
      · cases h
      · rw [hz] at h
        rw [if_neg (by norm_num)] at h
        cases h
        rfl
  refine ⟨hamt, ?_, ?_, ?_, ?_, ?_⟩
  · intro key raw hf
    rw [hamt, infer_debit_eq hf]
    exact ⟨rfl, rfl⟩
  · intro hd key raw hf
    rw [hamt, infer_credit_eq hd hf]
    exact ⟨rfl, rfl⟩
  · intro hd hc
    rw [hamt, infer_none_eq hd hc]
    exact ⟨rfl, rfl⟩
  · rw [hamt]
    cases hd : (debitFields tx).find? (fun p => hasValue p.2) with
    | some p =>
      obtain ⟨key, raw⟩ := p
      rw [infer_debit_eq hd]
      constructor
      · intro hlt
        refine ⟨key, raw, rfl, fun h0 => ?_⟩
        rw [h0] at hlt
        simp [ratAbs] at hlt
      · rintro ⟨key2, raw2, hf2, hne⟩
        have hkr : key = key2 ∧ raw = raw2 := by simpa using hf2
        obtain ⟨h1, h2⟩ := hkr
        subst h1
        subst h2
        have hpos := ratAbs_pos_of_ne hne
        simpa using hpos
    | none =>
      cases hc : (creditFields tx).find? (fun p => hasValue p.2) with
      | some p =>
        obtain ⟨key, raw⟩ := p
        rw [infer_credit_eq hd hc]
        constructor
        · intro hlt
          exact absurd hlt (not_lt.mpr (by simpa using ratAbs_nonneg (clean_amount raw)))
        · rintro ⟨key2, raw2, hf2, -⟩
          cases hf2
      | none =>
        rw [infer_none_eq hd hc]
        constructor
        · intro hlt
          exact absurd hlt (by simp)
        · rintro ⟨key2, raw2, hf2, -⟩
          cases hf2
  · rw [hamt]
    cases hd : (debitFields tx).find? (fun p => hasValue p.2) with
    | some p =>
      obtain ⟨key, raw⟩ := p
      rw [infer_debit_eq hd]
      constructor
      · intro hlt
        have := ratAbs_nonneg (clean_amount raw)
        exact absurd hlt (not_lt.mpr (by simpa using this))
      · rintro ⟨hnone, -⟩
        cases hnone
    | none =>
      cases hc : (creditFields tx).find? (fun p => hasValue p.2) with
      | some p =>
        obtain ⟨key, raw⟩ := p
        rw [infer_credit_eq hd hc]
        constructor
        · intro hlt
          refine ⟨rfl, key, raw, rfl, fun h0 => ?_⟩
          rw [h0] at hlt
          simp [ratAbs] at hlt
        · rintro ⟨-, key2, raw2, hf2, hne⟩
          have hkr : key = key2 ∧ raw = raw2 := by simpa using hf2
          obtain ⟨h1, h2⟩ := hkr
          subst h1
          subst h2
          have hpos := ratAbs_pos_of_ne hne
          simpa using hpos
      | none =>
        rw [infer_none_eq hd hc]
        constructor
        · intro hlt
          exact absurd hlt (by simp)
        · rintro ⟨-, key2, raw2, hf2, -⟩
          cases hf2

/-- The row of the C6 witness: a debit cell of 5. -/
def c6wRow : RawRow := { date := some "02-01-2023", description := some "Y", debit := some "5" }

/-- The transaction c6wRow normalizes to. -/
def c6wTxn : NormalizedTxn :=
  ⟨1, 1, ⟨2023, 1, 2⟩, "Y", -(mkRat 5 1), none, none, none, 0, none⟩

/-- Witness for the amended C6 at a concrete debit row. -/
theorem C6_witness :
    c6wTxn.amount = -(ratAbs (clean_amount (some "5"))) ∧ c6wTxn.amount < 0 := by
  have h := C6_sign_convention_amended 2026 c6wRow 1 1 c6wTxn (by decide) (by decide)
  refine ⟨(h.2.1 "debit" (some "5") (by decide)).1, ?_⟩
  exact h.2.2.2.2.1.mpr ⟨"debit", some "5", by decide, by decide⟩

lemma stripChars_of_no_ws {l : List Char} (h : ∀ c ∈ l, isPyWs c = false) :
    stripChars l = l := by
  unfold stripChars
  have h1 : l.dropWhile isPyWs = l := by
    cases l with
    | nil => rfl
    | cons a t => rw [List.dropWhile_cons_of_neg (by simp [h a (List.mem_cons_self a t)])]
  rw [h1]
  have h2 : l.reverse.dropWhile isPyWs = l.reverse := by
    cases hr : l.reverse with
    | nil => rfl
    | cons a t =>
      have ha : a ∈ l := by
        rw [← List.mem_reverse, hr]
        exact List.mem_cons_self a t
      rw [List.dropWhile_cons_of_neg (by simp [h a ha])]
  rw [h2, List.reverse_reverse]

/-- C7: clean_amount always returns a rational without raising (it is a
total function): the thousands separators and spaces are stripped, a
parenthesised value is the negation of its inner unsigned decimal (the
scenario string gives -1234.5), and empty, missing or unparsable input gives
0.0. -/
theorem C7_clean_amount :
    clean_amount (some "(1,234.50)") = -(mkRat 12345 10) ∧
    clean_amount none = 0 ∧
    clean_amount (some "") = 0 ∧
    (∀ s : String, s ≠ "" →
      ¬((s.toList.filter (fun c => !(c == ',' || c == ' '))).head? = some '(' ∧
        (s.toList.filter (fun c => !(c == ',' || c == ' '))).getLast? = some ')') →
      pyFloatChars (s.toList.filter (fun c => !(c == ',' || c == ' '))) = none →
      clean_amount (some s) = 0) ∧
    (∀ (w : String) (q : ℚ),
      w.toList.all (fun c => isDigitC c || c == '.' || c == ',') = true →
      parseUnsignedChars (w.toList.filter (fun c => !(c == ',' || c == ' '))) = some q →
      clean_amount (some ("(" ++ w ++ ")")) = -q) := by
  refine ⟨by decide, rfl, rfl, ?_, ?_⟩
  · intro s hs hpar hparse
    simp only [clean_amount]
    rw [if_neg hs]
    set t := s.toList.filter (fun c => !(c == ',' || c == ' ')) with ht
    have hcond : (t.head? == some '(' && t.getLast? == some ')') = false := by
      by_cases h1 : t.head? = some '('
      · by_cases h2 : t.getLast? = some ')'
        · exact absurd ⟨h1, h2⟩ hpar
        · simp [h2]
      · simp [h1]
    simp only [hcond, Bool.false_eq_true, if_false]
    rw [hparse]
  · intro w q hchars hq
    have hdata : ("(" ++ w ++ ")").toList = '(' :: (w.toList ++ [')']) := by
      show ("(" ++ w ++ ")").data = _
      rw [String.data_append, String.data_append]
      rfl
    have hne : ("(" ++ w ++ ")") ≠ "" := by
      intro he
      rw [he] at hdata
      cases hdata
    simp only [clean_amount]
    rw [if_neg hne, hdata]
    have hfil : ('(' :: (w.toList ++ [')'])).filter (fun c => !(c == ',' || c == ' ')) =
        '(' :: (w.toList.filter (fun c => !(c == ',' || c == ' ')) ++ [')']) := by
      rw [List.filter_cons_of_pos (by decide), List.filter_append]
      rfl
    rw [hfil]
    set fw := w.toList.filter (fun c => !(c == ',' || c == ' ')) with hfw
    have hlast : ('(' :: (fw ++ [')'])).getLast? = some ')' := by
      rw [← List.cons_append, List.getLast?_concat]
    have hcond : ((('(' : Char) :: (fw ++ [')'])).head? == some '(' &&
        ('(' :: (fw ++ [')'])).getLast? == some ')') = true := by
      rw [hlast]
      rfl
    rw [if_pos hcond]
    have hdrop : (('(' :: (fw ++ [')'])).drop 1).dropLast = fw := by
      show (fw ++ [')']).dropLast = fw
      rw [List.dropLast_concat]
    rw [hdrop]
    have hfwnows : ∀ c ∈ fw, isPyWs c = false := by
      intro c hcfw
      have hcw : c ∈ w.toList := List.mem_of_mem_filter hcfw
      rw [List.all_eq_true] at hchars
      have hc := hchars c hcw
      rcases Bool.or_eq_true_iff.mp hc with h1 | h1
      · rcases Bool.or_eq_true_iff.mp h1 with h2 | h2
        · have hd1 : '0' ≤ c := by
            have := (Bool.and_eq_true_iff.mp h2).1
            simpa using this
          have hd2 : c ≤ '9' := by
            have := (Bool.and_eq_true_iff.mp h2).2
            simpa using this
          unfold isPyWs
          simp only [Bool.or_eq_false_iff, beq_eq_false_iff_ne, ne_eq]
          refine ⟨⟨⟨⟨⟨?_, ?_⟩, ?_⟩, ?_⟩, ?_⟩, ?_⟩ <;>
            · rintro rfl
              revert hd1 hd2
              decide
        · have hc2 : c = '.' := by simpa using h2
          subst hc2
          decide
      · have hc2 : c = ',' := by simpa using h1
        subst hc2
        decide
    have hstrip : stripChars ('-' :: fw) = '-' :: fw := by
      refine stripChars_of_no_ws ?_
      intro c hc
      rcases List.mem_cons.mp hc with rfl | hc2
      · decide
      · exact hfwnows c hc2
    have hpf : pyFloatChars ('-' :: fw) = (parseUnsignedChars fw).map (fun r => -r) := by
      unfold pyFloatChars
      rw [hstrip]
      rfl
    rw [hpf, hq]
    rfl

/-- Witness for C7: the general no-parse and parenthesised-negation clauses
applied at concrete inputs. -/
theorem C7_witness :
    clean_amount (some "abc") = 0 ∧ clean_amount (some "(2.5)") = -(mkRat 25 10) := by
  refine ⟨C7_clean_amount.2.2.2.1 "abc" (by decide) (by decide) (by decide), ?_⟩
  exact C7_clean_amount.2.2.2.2 "2.5" (mkRat 25 10) (by decide) (by decide)

/-- C8: parse_date returns none rather than raising when no supported format
matches (its result type is an optional date and every branch is total), the
textual form 12JAN23 parses to 2023-01-12, the boundary years 69 and 70
expand to 2069 and 1970, and a two-digit year below 70 maps to 2000 plus the
year while the rest map to 1900 plus the year. -/
theorem C8_parse_date :
    parse_date 2026 "12JAN23" = some ⟨2023, 1, 12⟩ ∧
    parse_date 2026 "12JAN69" = some ⟨2069, 1, 12⟩ ∧
    parse_date 2026 "12JAN70" = some ⟨1970, 1, 12⟩ ∧
    parse_date 2026 "TOTALLY UNPARSEABLE" = none ∧
    (∀ y : Nat, y < 100 →
      expandTwoDigitYear y = if y < 70 then 2000 + y else 1900 + y) := by
  refine ⟨by decide, by decide, by decide, by decide, ?_⟩
  intro y hy
  unfold expandTwoDigitYear
  rw [if_pos hy]

/-- Witness for C8: the two-digit year expansion applied at the concrete
year 5. -/
theorem C8_witness : expandTwoDigitYear 5 = 2005 := by
  have h := C8_parse_date.2.2.2.2 5 (by decide)
  simpa using h

lemma map_ite_id {α : Type} {l : List α} {p : α → Bool} {f : α → α}
    (h : ∀ t ∈ l, p t = false) :
    (l.map fun t => if p t then f t else t) = l := by
  induction l with
  | nil => rfl
  | cons a t ih =>
    rw [List.map_cons, h a (List.mem_cons_self a t)]
    simp only [Bool.false_eq_true, if_false]
    rw [ih (fun x hx => h x (List.mem_cons_of_mem a hx))]

lemma filter_eq_nil_of {α : Type} {l : List α} {p : α → Bool}
    (h : ∀ t ∈ l, p t = false) : l.filter p = [] := by
  induction l with
  | nil => rfl
  | cons a t ih =>
    rw [List.filter_cons_of_neg (by simp [h a (List.mem_cons_self a t)])]
    exact ih (fun x hx => h x (List.mem_cons_of_mem a hx))

lemma resolved_notNullOrPending {t : DBTxn} (h : resolvedTxn t) :
    isNullOrPending t = false := by
  obtain ⟨⟨c, hc, hcne⟩, -, -⟩ := h
  unfold isNullOrPending
  rw [hc]
  simp [hcne]

lemma resolved_notMinilmSelect {t : DBTxn} (h : resolvedTxn t) :
    minilmSelect MINILM_LOW_CONF_THRESHOLD t = false := by
  obtain ⟨⟨c, hc, hcne⟩, hreg, -⟩ := h
  unfold minilmSelect
  rw [hc]
  by_cases hs : t.classification_source = some "regex" ∨
      t.classification_source = some "heuristic"
  · have hle := hreg hs
    have hdec : decide (t.confidence < MINILM_LOW_CONF_THRESHOLD) = false := by
      simp [not_lt.mpr hle]
    simp [hcne, hdec]
  · push_neg at hs
    simp [hcne, hs.1, hs.2]

lemma resolved_notLlmSelect {t : DBTxn} (h : resolvedTxn t) :
    llmSelect LLM_FALLBACK_CONF_THRESHOLD t = false := by
  obtain ⟨⟨c, hc, hcne⟩, -, hbert⟩ := h
  unfold llmSelect
  rw [hc]
  by_cases hs : t.classification_source = some "bert"
  · have hle := hbert hs
    have hdec : decide (t.confidence < LLM_FALLBACK_CONF_THRESHOLD) = false := by
      simp [not_lt.mpr hle]
    simp [hcne, hdec]
  · simp [hcne, hs]

lemma rerunRegexPass_id {clfs : StageClassifiers} {st : PipelineState}
    (h : ∀ t ∈ st.txns, isNullOrPending t = false) :
    rerunRegexPass clfs st = st := by
  simp only [rerunRegexPass, map_ite_id h, filter_eq_nil_of h, List.map_nil,
    List.append_nil]

lemma rerunHeurPass_id {clfs : StageClassifiers} {st : PipelineState}
    (h : ∀ t ∈ st.txns, isNullOrPending t = false) :
    rerunHeurPass clfs st = st := by
  simp only [rerunHeurPass, map_ite_id h, filter_eq_nil_of h, List.filterMap_nil,
    List.append_nil]

lemma rerunMinilmPass_id {clfs : StageClassifiers} {st : PipelineState}
    (h : ∀ t ∈ st.txns, minilmSelect MINILM_LOW_CONF_THRESHOLD t = false) :
    rerunMinilmPass clfs MINILM_LOW_CONF_THRESHOLD st = st := by
  simp only [rerunMinilmPass, fetch_transactions_for_minilm, map_ite_id h,
    filter_eq_nil_of h, List.map_nil, List.append_nil]

lemma rerunLlmPass_id {clfs : StageClassifiers} {st : PipelineState}
    (h : ∀ t ∈ st.txns, llmSelect LLM_FALLBACK_CONF_THRESHOLD t = false) :
    rerunLlmPass clfs LLM_FALLBACK_CONF_THRESHOLD st = st := by
  simp only [rerunLlmPass, fetch_transactions_for_llm, map_ite_id h,
    filter_eq_nil_of h, List.map_nil, List.append_nil]

/-- C1: rerunning the orchestrator on a statement whose transactions are all
resolved (non-PENDING category, confidence at or above the fallthrough
threshold of the stage named by their classification_source) changes nothing:
no transaction is re-inserted (the rerun branch never inserts and the row
list is returned unchanged), no category, subcategory, confidence or
classification_source moves, and here not even a log entry is appended, for
every choice of the four stage classifiers. -/
theorem C1_rerun_is_fixed_point (clfs : StageClassifiers) (st : PipelineState)
    (h : ∀ t ∈ st.txns, resolvedTxn t) :
    rerun_statement clfs st = st := by
  unfold rerun_statement
  rw [rerunRegexPass_id (fun t ht => resolved_notNullOrPending (h t ht)),
      rerunHeurPass_id (fun t ht => resolved_notNullOrPending (h t ht)),
      rerunMinilmPass_id (fun t ht => resolved_notMinilmSelect (h t ht)),
      rerunLlmPass_id (fun t ht => resolved_notLlmSelect (h t ht))]

/-- A one-row resolved statement state. -/
def exampleResolvedState : PipelineState :=
  ⟨[⟨1, some "UPI FOO", none, none, some "Dining", some "FoodDelivery",
     mkRat 9 10, some "llm"⟩], []⟩

/-- A concrete choice of stage classifiers. -/
def trivialClfs : StageClassifiers :=
  ⟨fun _ => ("PENDING", none, none, 0), fun _ => ("PENDING", none, 0),
   fun _ => ("PENDING", 0), fun _ => ("PENDING", none, 0)⟩

/-- Witness for C1 at a concrete resolved state and concrete classifiers. -/
theorem C1_witness :
    rerun_statement trivialClfs exampleResolvedState = exampleResolvedState := by
  refine C1_rerun_is_fixed_point _ _ ?_
  intro t ht
  simp only [exampleResolvedState] at ht
  rw [List.mem_singleton] at ht
  subst ht
  refine ⟨⟨"Dining", rfl, by decide⟩, ?_, ?_⟩
  · rintro (hs | hs) <;> simp at hs
  · intro hs
    simp at hs

lemma mem_insertByLenDesc {x a : String} {l : List String} :
    a ∈ insertByLenDesc x l ↔ a = x ∨ a ∈ l := by
  induction l with
  | nil => simp [insertByLenDesc]
  | cons y ys ih =>
    unfold insertByLenDesc
    split
    · simp [List.mem_cons]
    · simp only [List.mem_cons, ih]
      tauto

lemma insertByLenDesc_pairwise {x : String} {l : List String}
    (h : l.Pairwise (fun a b => b.length ≤ a.length)) :
    (insertByLenDesc x l).Pairwise (fun a b => b.length ≤ a.length) := by
  induction l with
  | nil => simp [insertByLenDesc]
  | cons y ys ih =>
    rcases List.pairwise_cons.mp h with ⟨hy, hys⟩
    unfold insertByLenDesc
    split
    next hle =>
      refine List.pairwise_cons.mpr ⟨?_, h⟩
      intro b hb
      rcases List.mem_cons.mp hb with rfl | hb2
      · exact hle
      · exact le_trans (hy b hb2) hle
    next hgt =>
      refine List.pairwise_cons.mpr ⟨?_, ih hys⟩
      intro b hb
      rcases mem_insertByLenDesc.mp hb with rfl | hb2
      · omega
      · exact hy b hb2

lemma sortByLenDesc_pairwise (l : List String) :
    (sortByLenDesc l).Pairwise (fun a b => b.length ≤ a.length) := by
  induction l with
  | nil => exact List.Pairwise.nil
  | cons x xs ih => exact insertByLenDesc_pairwise ih

lemma mem_sortByLenDesc {a : String} {l : List String} :
    a ∈ sortByLenDesc l ↔ a ∈ l := by
  induction l with
  | nil => simp [sortByLenDesc]
  | cons x xs ih =>
    unfold sortByLenDesc
    rw [mem_insertByLenDesc]
    simp [ih]

lemma find?_exists_of_mem {α : Type} {p : α → Bool} {l : List α} {a : α}
    (ha : a ∈ l) (hp : p a = true) : ∃ b, l.find? p = some b := by
  induction l with
  | nil => cases ha
  | cons x xs ih =>
    by_cases hx : p x = true
    · exact ⟨x, List.find?_cons_of_pos _ hx⟩
    · rcases List.mem_cons.mp ha with rfl | ha2
      · exact absurd hp hx
      · rcases ih ha2 with ⟨b, hb⟩
        refine ⟨b, ?_⟩
        rw [List.find?_cons_of_neg _ (by simp [hx]), hb]

lemma find?_max_of_sorted {p : String → Bool} {l : List String}
    (hs : l.Pairwise (fun a b => b.length ≤ a.length)) {k : String}
    (hf : l.find? p = some k) :
    ∀ x ∈ l, p x = true → x.length ≤ k.length := by
  induction l with
  | nil => cases hf
  | cons a t ih =>
    rcases List.pairwise_cons.mp hs with ⟨ha, ht⟩
    by_cases hpa : p a = true
    · rw [List.find?_cons_of_pos _ hpa] at hf
      cases hf
      intro x hx _
      rcases List.mem_cons.mp hx with rfl | hx2
      · exact le_refl _
      · exact ha x hx2
    · rw [List.find?_cons_of_neg _ (by simp [hpa])] at hf
      intro x hx hpx
      rcases List.mem_cons.mp hx with rfl | hx2
      · exact absurd hpx hpa
      · exact ih ht hf x hx2 hpx

/-- C10: VENDOR_KEYS is the vendor-map key list sorted by key length in
descending order, so whenever some vendor-map key occurs as a substring of
the normalized description, the exact-substring pass of
extract_vendor_from_map returns a matching key of maximal length among all
matching keys, at confidence 0.95. -/
theorem C10_vendor_longest_match (desc k0 : String)
    (h1 : k0 ∈ vendorMapKeys) (h2 : pyContains desc k0 = true) :
    VENDOR_KEYS.Pairwise (fun a b => b.length ≤ a.length) ∧
    ∃ k, extract_vendor_from_map desc = some (k, mkRat 95 100) ∧
      pyContains desc k = true ∧ k ∈ vendorMapKeys ∧
      ∀ k2 ∈ vendorMapKeys, pyContains desc k2 = true → k2.length ≤ k.length := by
  have hpair : VENDOR_KEYS.Pairwise (fun a b => b.length ≤ a.length) :=
    sortByLenDesc_pairwise vendorMapKeys
  refine ⟨hpair, ?_⟩
  have hmem : k0 ∈ VENDOR_KEYS := mem_sortByLenDesc.mpr h1
  obtain ⟨k, hk⟩ :=
    find?_exists_of_mem (p := fun key => pyContains desc key) hmem h2
  refine ⟨k, ?_, List.find?_some hk,
    mem_sortByLenDesc.mp (List.mem_of_find?_eq_some hk), ?_⟩
  · simp only [extract_vendor_from_map]
    rw [hk]
  · intro k2 hk2 hc2
    exact find?_max_of_sorted hpair hk k2 (mem_sortByLenDesc.mpr hk2) hc2

/-- Witness for C10 at a concrete description containing two vendor keys of
different lengths. -/
theorem C10_witness :
    ∃ k, extract_vendor_from_map "VIDHATA XEROX AND GENERAL STORE DMART" =
        some (k, mkRat 95 100) ∧
      pyContains "VIDHATA XEROX AND GENERAL STORE DMART" k = true ∧
      k ∈ vendorMapKeys ∧
      ∀ k2 ∈ vendorMapKeys,
        pyContains "VIDHATA XEROX AND GENERAL STORE DMART" k2 = true →
        k2.length ≤ k.length :=
  (C10_vendor_longest_match "VIDHATA XEROX AND GENERAL STORE DMART" "DMART"
    (by decide) (by decide)).2

/-! C9 infrastructure: the Stage 1 result invariant. -/

lemma lookup_isSome_of_mem_keys {β : Type} {l : List (String × β)} {a : String}
    (h : a ∈ l.map Prod.fst) : (l.lookup a).isSome := by
  induction l with
  | nil => simp at h
  | cons p t ih =>
    obtain ⟨k, b⟩ := p
    by_cases hak : a = k
    · subst hak
      simp [List.lookup]
    · have hbeq : (a == k) = false := by simp [hak]
      rw [List.map_cons] at h
      rcases List.mem_cons.mp h with h1 | h2
      · exact absurd h1 hak
      · simp only [List.lookup, hbeq]
        exact ih h2

lemma lookup_mem {β : Type} {l : List (String × β)} {a : String} {b : β}
    (h : l.lookup a = some b) : (a, b) ∈ l := by
  induction l with
  | nil => cases h
  | cons p t ih =>
    obtain ⟨k, v⟩ := p
    by_cases hak : a = k
    · subst hak
      simp only [List.lookup, beq_self_eq_true] at h
      cases h
      exact List.mem_cons_self _ _
    · have hbeq : (a == k) = false := by simp [hak]
      simp only [List.lookup, hbeq] at h
      exact List.mem_cons_of_mem _ (ih h)

lemma vendor_map_no_pending : ∀ p ∈ VENDOR_CATEGORY_MAP, p.2.1 ≠ "PENDING" := by decide

lemma upi_map_no_pending : ∀ p ∈ UPI_MERCHANT_MAP, p.2.1 ≠ "PENDING" := by decide

lemma category_labels_no_pending :
    ∀ lbl ∈ CATEGORY_REGEX_LABELS, (pySplitChar '.' lbl).headD "" ≠ "PENDING" := by decide

lemma keywords_map_facts :
    ∀ e ∈ KEYWORDS_MAP, e.2.1 ≠ "PENDING" ∧
      (e.2.2.2 = mkRat 75 100 ∨ e.2.2.2 = mkRat 80 100) := by decide

lemma vendorLookup_ne_pending {k : String} (h : k ∈ vendorMapKeys) :
    (vendorLookup k).1 ≠ "PENDING" := by
  obtain ⟨cs, hcs⟩ := Option.isSome_iff_exists.mp (lookup_isSome_of_mem_keys h)
  have hmem := lookup_mem hcs
  unfold vendorLookup
  rw [hcs]
  simpa using vendor_map_no_pending _ hmem

lemma upiLookup_ne_pending {k : String} (h : k ∈ upiMapKeys) :
    (upiLookup k).1 ≠ "PENDING" := by
  obtain ⟨cs, hcs⟩ := Option.isSome_iff_exists.mp (lookup_isSome_of_mem_keys h)
  have hmem := lookup_mem hcs
  unfold upiLookup
  rw [hcs]
  simpa using upi_map_no_pending _ hmem

lemma mem_VENDOR_KEYS_map {k : String} (h : k ∈ VENDOR_KEYS) : k ∈ vendorMapKeys :=
  mem_sortByLenDesc.mp h

lemma mem_UPI_KEYS_map {k : String} (h : k ∈ UPI_KEYS) : k ∈ upiMapKeys :=
  mem_sortByLenDesc.mp h

lemma mkRat_le_mkRat_100 {a b : Nat} (h : a ≤ b) : mkRat a 100 ≤ mkRat b 100 := by
  rw [Rat.mkRat_eq_div, Rat.mkRat_eq_div]
  rw [div_le_div_iff_of_pos_right (by norm_num : (0 : ℚ) < ((100 : Nat) : ℚ))]
  exact_mod_cast h

lemma mkRat_100_le_one {a : Nat} (h : a ≤ 100) : mkRat a 100 ≤ 1 := by
  rw [Rat.mkRat_eq_div]
  rw [div_le_one (by norm_num : (0 : ℚ) < ((100 : Nat) : ℚ))]
  exact_mod_cast h

lemma le_pyMax_left (a b : ℚ) : a ≤ pyMax a b := by
  unfold pyMax
  split
  · exact le_refl a
  · linarith [le_of_not_le (by assumption : ¬ b ≤ a)]

/-- Invariant of every Stage 1 result: PENDING comes with confidence 0 and no
subcategory, and anything else comes with a confidence between 0.70 and 1. -/
def regexInv (r : RegexResult) : Prop :=
  (r.category = "PENDING" → r.confidence = 0 ∧ r.subcategory = none) ∧
  (r.category ≠ "PENDING" → mkRat 70 100 ≤ r.confidence ∧ r.confidence ≤ 1)

lemma pendingEmpty_inv : regexInv pendingEmptyRegex :=
  ⟨fun _ => ⟨rfl, rfl⟩, fun h => absurd rfl h⟩

lemma regexInv_of_const {cat : String} {sub v : Option String}
    {m : List (String × String)} {k : ℚ} (hc : cat ≠ "PENDING")
    (h70 : mkRat 70 100 ≤ k) (h1 : k ≤ 1) :
    regexInv ⟨cat, sub, v, k, m⟩ :=
  ⟨fun h => absurd h hc, fun _ => ⟨h70, h1⟩⟩

/-- Invariant of the mutable rule state: confidence at most 1, and a set
category is non-PENDING with confidence at least 0.70. -/
def stInv (st : RuleState) : Prop :=
  st.confidence ≤ 1 ∧ ∀ c, st.category = some c → c ≠ "PENDING" ∧ mkRat 70 100 ≤ st.confidence

lemma stInv_update {st : RuleState} (hst : stInv st) {c : String}
    {sub v : Option String} {m : List (String × String)} {k : ℚ}
    (hc : c ≠ "PENDING") (h70 : mkRat 70 100 ≤ k) (h1 : k ≤ 1) :
    stInv ⟨some c, sub, v, pyMax st.confidence k, m⟩ := by
  refine ⟨pyMax_le hst.1 h1, ?_⟩
  intro c2 hc2
  cases hc2
  exact ⟨hc, le_trans h70 (le_pyMax_right _ _)⟩

lemma upiMerchantHit_some_inv {env : RegexEnv} {g : Option String} {r : RegexResult}
    (h : upiMerchantHit env g = some r) : regexInv r := by
  cases g with
  | none =>
    rw [show upiMerchantHit env none = none from rfl] at h
    cases h
  | some m =>
    simp only [upiMerchantHit] at h
    split at h
    next key heq =>
      cases h
      exact regexInv_of_const
        (vendorLookup_ne_pending (mem_VENDOR_KEYS_map (List.mem_of_find?_eq_some heq)))
        (mkRat_le_mkRat_100 (by norm_num)) (mkRat_100_le_one (by norm_num))
    next heq => cases h

lemma upiPatternScan_some_inv {env : RegexEnv} {tn : String} {r : RegexResult}
    (h : upiPatternScan env tn = some r) : regexInv r := by
  unfold upiPatternScan at h
  split at h
  · split at h
    next r1 heq1 =>
      cases h
      exact upiMerchantHit_some_inv heq1
    next =>
      split at h
      next r2 heq2 =>
        cases h
        exact upiMerchantHit_some_inv heq2
      next => exact upiMerchantHit_some_inv h
  · cases h

lemma classify_upi_shape (env : RegexEnv) (tn : String) :
    (classify_upi env tn).category = none ∨
    (classify_upi env tn).category = some "PENDING" ∨
    ((classify_upi env tn).category = some "Transfers" ∧
      (classify_upi env tn).subcategory = some "ToBusiness") ∨
    ((∀ c, (classify_upi env tn).category = some c → c ≠ "PENDING") ∧
      mkRat 70 100 ≤ (classify_upi env tn).confidence ∧
      (classify_upi env tn).confidence ≤ 1) := by
  unfold classify_upi
  split
  · exact Or.inl rfl
  · dsimp only
    split
    next g1 g2 heqv =>
      split
      next key heqf =>
        refine Or.inr (Or.inr (Or.inr ⟨?_, ?_, ?_⟩))
        · intro c hc
          cases hc
          exact upiLookup_ne_pending (mem_UPI_KEYS_map (List.mem_of_find?_eq_some heqf))
        · exact mkRat_le_mkRat_100 (by norm_num)
        · exact mkRat_100_le_one (by norm_num)
      next =>
        split
        · refine Or.inr (Or.inr (Or.inr ⟨?_, ?_, ?_⟩))
          · intro c hc
            cases hc
            decide
          · exact mkRat_le_mkRat_100 (by norm_num)
          · exact mkRat_100_le_one (by norm_num)
        · exact Or.inr (Or.inr (Or.inl ⟨rfl, rfl⟩))
    next =>
      split
      next tid g2 heqi =>
        split
        next key heqf =>
          refine Or.inr (Or.inr (Or.inr ⟨?_, ?_, ?_⟩))
          · intro c hc
            cases hc
            exact upiLookup_ne_pending (mem_UPI_KEYS_map (List.mem_of_find?_eq_some heqf))
          · exact mkRat_le_mkRat_100 (by norm_num)
          · exact mkRat_100_le_one (by norm_num)
        next =>
          split
          · refine Or.inr (Or.inr (Or.inr ⟨?_, ?_, ?_⟩))
            · intro c hc
              cases hc
              decide
            · exact mkRat_le_mkRat_100 (by norm_num)
            · exact mkRat_100_le_one (by norm_num)
          · exact Or.inr (Or.inr (Or.inl ⟨rfl, rfl⟩))
      next => exact Or.inr (Or.inl rfl)

lemma acceptUpi_some_inv {u : UpiResult} {r : RegexResult}
    (hshape : u.category = none ∨ u.category = some "PENDING" ∨
      (u.category = some "Transfers" ∧ u.subcategory = some "ToBusiness") ∨
      ((∀ c, u.category = some c → c ≠ "PENDING") ∧
        mkRat 70 100 ≤ u.confidence ∧ u.confidence ≤ 1))
    (h : acceptUpi u = some r) : regexInv r := by
  unfold acceptUpi at h
  split at h
  next uc hcat =>
    split at h
    next hguard =>
      cases h
      obtain ⟨hPend, hBus⟩ := hguard
      rcases hshape with h1 | h2 | h3 | h4
      · rw [hcat] at h1
        cases h1
      · rw [hcat] at h2
        cases h2
        exact absurd rfl hPend
      · rw [hcat] at h3
        obtain ⟨h3a, h3b⟩ := h3
        cases h3a
        exact absurd ⟨rfl, h3b⟩ hBus
      · exact ⟨fun hp => absurd hp hPend, fun _ => h4.2⟩
    next => cases h
  next => cases h

lemma semanticElifChain_inv {env : RegexEnv} {tn : String} {st : RuleState}
    (hst : stInv st) : stInv (semanticElifChain env tn st) := by
  unfold semanticElifChain
  split_ifs <;>
    first
      | exact hst
      | exact stInv_update hst (by decide) (mkRat_le_mkRat_100 (by norm_num))
          (mkRat_100_le_one (by norm_num))

lemma posStep_some_inv {env : RegexEnv} {tn : String} {st : RuleState} {r : RegexResult}
    (h : posStep env tn st = some r) : regexInv r := by
  simp only [posStep] at h
  split at h
  · split at h
    next pm heqp =>
      split at h
      next key heqf =>
        cases h
        exact regexInv_of_const
          (vendorLookup_ne_pending (mem_VENDOR_KEYS_map (List.mem_of_find?_eq_some heqf)))
          (mkRat_le_mkRat_100 (by norm_num)) (mkRat_100_le_one (by norm_num))
      next => cases h
    next => cases h
  · cases h

lemma categoryRegexStep_inv {env : RegexEnv} {tl tn : String} {st : RuleState}
    (hst : stInv st) : stInv (categoryRegexStep env tl tn st) := by
  unfold categoryRegexStep
  split
  · split
    next lbl heqf =>
      exact stInv_update hst
        (category_labels_no_pending _ (List.mem_of_find?_eq_some heqf))
        (mkRat_le_mkRat_100 (by norm_num)) (mkRat_100_le_one (by norm_num))
    next => exact hst
  · exact hst

lemma vendorRegexStep_inv {env : RegexEnv} {tl tn : String} {st : RuleState}
    (hst : stInv st) : stInv (vendorRegexStep env tl tn st) := by
  unfold vendorRegexStep
  split
  · split
    next name heqf =>
      refine ⟨pyMax_le hst.1 (mkRat_100_le_one (by norm_num)), ?_⟩
      intro c2 hc2
      by_cases hcat : (st.category == none) = true
      · rw [if_pos hcat] at hc2
        cases hc2
        exact ⟨by decide, le_pyMax_right _ _⟩
      · rw [if_neg hcat] at hc2
        obtain ⟨hne, h70⟩ := hst.2 c2 hc2
        exact ⟨hne, le_trans h70 (le_pyMax_left _ _)⟩
    next => exact hst
  · exact hst

lemma keywordStep_inv {tn : String} {st : RuleState}
    (hst : stInv st) : stInv (keywordStep tn st) := by
  unfold keywordStep
  split
  · split
    next kw cat subcat conf heqf =>
      have hfacts := keywords_map_facts _ (List.mem_of_find?_eq_some heqf)
      have hne : cat ≠ "PENDING" := hfacts.1
      have hconf : conf = mkRat 75 100 ∨ conf = mkRat 80 100 := hfacts.2
      refine stInv_update hst hne ?_ ?_
      · rcases hconf with hv | hv <;> rw [hv] <;>
          exact mkRat_le_mkRat_100 (by norm_num)
      · rcases hconf with hv | hv <;> rw [hv] <;>
          exact mkRat_100_le_one (by norm_num)
    next => exact hst
  · exact hst

lemma finalResult_inv {tn : String} {st : RuleState} (hst : stInv st) :
    regexInv (finalResult tn st) := by
  unfold finalResult
  split
  next heq =>
    exact ⟨fun _ => ⟨rfl, rfl⟩, fun h => absurd rfl h⟩
  next c heq =>
    refine ⟨?_, ?_⟩
    · intro hp
      exact absurd hp (hst.2 c heq).1
    · intro _
      exact ⟨(hst.2 c heq).2, hst.1⟩

lemma afterVendorSteps_inv {env : RegexEnv} {tl tn : String} {st : RuleState}
    (hst : stInv st) : regexInv (afterVendorSteps env tl tn st) := by
  unfold afterVendorSteps
  split_ifs
  · exact regexInv_of_const (by decide) (mkRat_le_mkRat_100 (by norm_num))
      (mkRat_100_le_one (by norm_num))
  · exact regexInv_of_const (by decide) (mkRat_le_mkRat_100 (by norm_num))
      (mkRat_100_le_one (by norm_num))
  · exact regexInv_of_const (by decide) (mkRat_le_mkRat_100 (by norm_num))
      (mkRat_100_le_one (by norm_num))
  · dsimp only
    cases hp : posStep env tn (semanticElifChain env tn st) with
    | some r => exact posStep_some_inv hp
    | none =>
      exact finalResult_inv
        (keywordStep_inv (vendorRegexStep_inv (categoryRegexStep_inv
          (semanticElifChain_inv hst))))

lemma thirdPassHit_values {d : String} {dw : List String} {key : String} {c : ℚ}
    (h : thirdPassHit d dw key = some c) :
    c = mkRat 75 100 ∨ c = mkRat 80 100 := by
  simp only [thirdPassHit] at h
  split at h
  · split at h
    · cases h
      exact Or.inl rfl
    · cases h
  · split at h
    next =>
      split at h
      · cases h
        exact Or.inr rfl
      · cases h
    next => cases h

lemma findSome?_mem {α β : Type} {f : α → Option β} {l : List α} {b : β}
    (h : l.findSome? f = some b) : ∃ a ∈ l, f a = some b := by
  induction l with
  | nil => cases h
  | cons x xs ih =>
    rw [List.findSome?_cons] at h
    cases hf : f x with
    | some v =>
      rw [hf] at h
      cases h
      exact ⟨x, List.mem_cons_self _ _, hf⟩
    | none =>
      rw [hf] at h
      obtain ⟨a, ha, hfa⟩ := ih h
      exact ⟨a, List.mem_cons_of_mem _ ha, hfa⟩

lemma extract_vendor_some {d k : String} {c : ℚ}
    (h : extract_vendor_from_map d = some (k, c)) :
    k ∈ VENDOR_KEYS ∧
    (c = mkRat 95 100 ∨ c = mkRat 85 100 ∨ c = mkRat 75 100 ∨ c = mkRat 80 100) := by
  simp only [extract_vendor_from_map] at h
  split at h
  next key heqf =>
    cases h
    exact ⟨List.mem_of_find?_eq_some heqf, Or.inl rfl⟩
  next =>
    split at h
    next key heqf =>
      cases h
      exact ⟨List.mem_of_find?_eq_some heqf, Or.inr (Or.inl rfl)⟩
    next =>
      obtain ⟨a, ha, hfa⟩ := findSome?_mem h
      cases hth : thirdPassHit d (pySplitWs d) a with
      | none =>
        rw [Option.map_eq_some'] at hfa
        obtain ⟨c2, hc2, -⟩ := hfa
        rw [hth] at hc2
        cases hc2
      | some c2 =>
        rw [Option.map_eq_some'] at hfa
        obtain ⟨c3, hc3, heq3⟩ := hfa
        rw [hth] at hc3
        cases hc3
        cases heq3
        exact ⟨ha, Or.inr (Or.inr (thirdPassHit_values hth))⟩

lemma vendorMapStage_inv (env : RegexEnv) (tl tn : String) :
    regexInv (vendorMapStage env tl tn) := by
  unfold vendorMapStage
  cases hx : extract_vendor_from_map tn with
  | none =>
    refine afterVendorSteps_inv ⟨by norm_num, ?_⟩
    intro c hc
    cases hc
  | some p =>
    obtain ⟨key, conf⟩ := p
    obtain ⟨hkmem, hconf⟩ := extract_vendor_some hx
    have hnp := vendorLookup_ne_pending (mem_VENDOR_KEYS_map hkmem)
    have h70 : mkRat 70 100 ≤ conf := by
      rcases hconf with hv | hv | hv | hv <;> rw [hv] <;>
        exact mkRat_le_mkRat_100 (by norm_num)
    have h1 : conf ≤ 1 := by
      rcases hconf with hv | hv | hv | hv <;> rw [hv] <;>
        exact mkRat_100_le_one (by norm_num)
    dsimp only
    split
    · exact regexInv_of_const hnp h70 h1
    · refine afterVendorSteps_inv ⟨h1, ?_⟩
      intro c hc
      cases hc
      exact ⟨hnp, h70⟩

lemma classifyAfterNorm_inv (env : RegexEnv) (tl tn : String) :
    regexInv (classifyAfterNorm env tl tn) := by
  unfold classifyAfterNorm
  cases hscan : upiPatternScan env tn with
  | some r => exact upiPatternScan_some_inv hscan
  | none =>
    cases hacc : acceptUpi (classify_upi env tn) with
    | some r => exact acceptUpi_some_inv (classify_upi_shape env tn) hacc
    | none => exact vendorMapStage_inv env tl tn

lemma classify_with_regex_inv (env : RegexEnv) (s : String) :
    regexInv (classify_with_regex env s) := by
  unfold classify_with_regex
  split
  · exact pendingEmpty_inv
  · exact classifyAfterNorm_inv env _ _

/-- C9: on every input where classify_with_regex returns normally, the
category is PENDING exactly when the confidence is 0, every non-PENDING
result carries a confidence between 0.70 and 1, and a PENDING result has no
subcategory — in particular the UPI sub-resolver's PENDING-at-0.30 outcome is
never returned.  This holds for every oracle valuation of the compiled
patterns. -/
theorem C9_regex_invariant (env : RegexEnv) (inp : PyInput) (r : RegexResult)
    (h : classify_with_regex_entry env inp = .ok r) :
    (r.category = "PENDING" ↔ r.confidence = 0) ∧
    (r.category ≠ "PENDING" → mkRat 70 100 ≤ r.confidence ∧ r.confidence ≤ 1) ∧
    (r.category = "PENDING" → r.subcategory = none) := by
  have hinv : regexInv r := by
    cases inp with
    | pyNone =>
      cases h
      exact pendingEmpty_inv
    | str s =>
      cases h
      exact classify_with_regex_inv env s
    | int n =>
      by_cases hn : n = 0
      · subst hn
        cases h
        exact pendingEmpty_inv
      · have hred : classify_with_regex_entry env (.int n) = .error .attributeError := by
          show (if n = 0 then Except.ok pendingEmptyRegex
                else Except.error PyError.attributeError) = _
          rw [if_neg hn]
        rw [hred] at h
        cases h
  obtain ⟨hp, hnp⟩ := hinv
  refine ⟨⟨fun h1 => (hp h1).1, fun h0 => ?_⟩, hnp, fun h1 => (hp h1).2⟩
  by_contra hne
  obtain ⟨h70, -⟩ := hnp hne
  rw [h0] at h70
  norm_num [Rat.mkRat_eq_div] at h70

/-- Witness for C9 at the all-miss oracle valuation and the empty input. -/
theorem C9_witness :
    (pendingEmptyRegex.category = "PENDING" ↔ pendingEmptyRegex.confidence = 0) ∧
    (pendingEmptyRegex.category ≠ "PENDING" →
      mkRat 70 100 ≤ pendingEmptyRegex.confidence ∧ pendingEmptyRegex.confidence ≤ 1) ∧
    (pendingEmptyRegex.category = "PENDING" → pendingEmptyRegex.subcategory = none) :=
  C9_regex_invariant envAllMiss (.str "") pendingEmptyRegex rfl

end SpendSight
